import Mathlib

/-!
Verification of the AmplifyMe multi-stage generation pipeline.

This file shallowly embeds the pipeline core of the repository:
* the `LLMRouter` with its retry/trace semantics
  (services/orchestratorSkeleton.ts, appended router section: `MODEL_MATRIX`,
  `recordTrace`, `withRetries`, `callJson`, `callText`, `callTextWithMode`,
  `callJsonWithMode`, `callImageGen`, `callImageGenWithMode`);
* the stage executors and the main orchestrator
  (src/unnamed/part_001, second document: `safeRunUnderstanding`,
  `safeRunVisualDirector`, `runFastGuardrail`, `safeRunFastGuardrail`,
  the per-image enhancement loop, the empathy/copy sections and
  `runOrchestrator`).

Modelling conventions:
* The generative backend is external.  It is modelled by a `Backend` record of
  oracles.  Each backend attempt consumes one tick of a global call counter
  threaded through `RouterState`, so an oracle answer may depend on the full
  call history position (this covers every deterministic stateful backend).
  `Except.error` covers both a thrown network error and an empty/unparseable
  response (both are thrown inside the attempt closure in the source).
* `File` objects are modelled by the base64 data-URL strings the orchestrator
  converts them to (`fileToDataURL`); the conversion itself is the identity.
* Wall-clock durations (`performance.now`) are modelled as 0; floating point
  temperatures are stored scaled by 100 (0.55 becomes 55).  Neither value
  influences any control flow.
* JS truthiness on strings / nullable strings (`x || y`, `if (x)`) is modelled
  by `jsOr` / `jsOrStr` / `imgTruthy`: `null`, `undefined` and `""` are falsy.
-/

deriving instance DecidableEq for Except

namespace AmplifyMe

/-- Performance mode (`'fast' | 'quality'`, services/llmRouter appended section). -/
inductive Mode
  | fast
  | quality
deriving DecidableEq, Repr

/-- Agent identifiers (`AgentId` union type in the router). -/
inductive AgentId
  | UNDERSTANDING
  | VISUAL_DIRECTOR
  | IMAGE_GEN
  | FAST_GUARDRAIL
  | IMAGE_QA
  | COPY
  | EMPATHY
deriving DecidableEq, Repr

/-- Printable agent name, used in router error messages. -/
def agentName : AgentId → String
  | .UNDERSTANDING => "UNDERSTANDING"
  | .VISUAL_DIRECTOR => "VISUAL_DIRECTOR"
  | .IMAGE_GEN => "IMAGE_GEN"
  | .FAST_GUARDRAIL => "FAST_GUARDRAIL"
  | .IMAGE_QA => "IMAGE_QA"
  | .COPY => "COPY"
  | .EMPATHY => "EMPATHY"

/-- Embedding of `ModelSpec` of the router.  `temperature100`/`topP100` are the source's
floating point values scaled by 100.  The `tools` field (google search
configuration) carries no pipeline-relevant information and is omitted. -/
structure ModelSpec where
  model : String
  temperature100 : Nat
  topP100 : Option Nat := none
  topK : Option Nat := none
  maxOutputTokens : Option Nat := none
  responseMimeType : Option String := none
  retries : Nat
deriving DecidableEq, Repr

/-- The `MODEL_MATRIX` lookup table of the router: (mode, agent) to spec,
`none` meaning "stage disabled in this mode". -/
def MODEL_MATRIX : Mode → AgentId → Option ModelSpec
  | .fast, .UNDERSTANDING =>
    some { model := "gemini-3-pro-preview", temperature100 := 20,
           responseMimeType := some "application/json", retries := 2 }
  | .fast, .VISUAL_DIRECTOR =>
    some { model := "gemini-3-pro-preview", temperature100 := 40,
           responseMimeType := some "application/json", retries := 2 }
  | .fast, .IMAGE_GEN =>
    some { model := "gemini-2.5-flash-image", temperature100 := 50,
           maxOutputTokens := some 1024, retries := 2 }
  | .fast, .FAST_GUARDRAIL =>
    some { model := "gemini-2.5-flash-lite", temperature100 := 10,
           responseMimeType := some "application/json", retries := 1 }
  | .fast, .IMAGE_QA => none
  | .fast, .COPY =>
    some { model := "gemini-2.5-flash", temperature100 := 70,
           responseMimeType := some "application/json", retries := 2 }
  | .fast, .EMPATHY =>
    some { model := "gemini-2.5-flash", temperature100 := 50,
           maxOutputTokens := some 100, retries := 2 }
  | .quality, .UNDERSTANDING =>
    some { model := "gemini-3-pro-preview", temperature100 := 20,
           responseMimeType := some "application/json", retries := 3 }
  | .quality, .VISUAL_DIRECTOR =>
    some { model := "gemini-3-pro-preview", temperature100 := 40,
           responseMimeType := some "application/json", retries := 3 }
  | .quality, .IMAGE_GEN =>
    some { model := "gemini-3-pro-image-preview", temperature100 := 55,
           topP100 := some 90, topK := some 30, retries := 3 }
  | .quality, .IMAGE_QA =>
    some { model := "gemini-2.5-flash-lite", temperature100 := 10,
           responseMimeType := some "application/json", retries := 2 }
  | .quality, .FAST_GUARDRAIL => none
  | .quality, .COPY =>
    some { model := "gemini-3-pro-preview", temperature100 := 70,
           responseMimeType := some "application/json", retries := 3 }
  | .quality, .EMPATHY =>
    some { model := "gemini-3-pro-preview", temperature100 := 50,
           maxOutputTokens := some 100, retries := 2 }

/-- One `LLMTraceRecord` row (types.ts). -/
structure LLMTraceRecord where
  agent : AgentId
  mode : Mode
  model : String
  temperature100 : Nat
  responseMimeType : Option String
  retriesUsed : Nat
  durationMs : Nat
  ok : Bool
  error : Option String
deriving DecidableEq, Repr

/-- The mutable state owned by one router instance: the append-only trace
list plus the global backend-attempt counter used to address the oracles. -/
structure RouterState where
  traces : List LLMTraceRecord
  calls : Nat
deriving DecidableEq, Repr

/-- Embedding of `LLMRouter.recordTrace`: push one record; its mode is
`modeOverride || this.mode`. -/
def recordTrace (agentId : AgentId) (spec : ModelSpec) (attempt : Nat)
    (durationMs : Nat) (ok : Bool) (error : Option String)
    (modeOverride : Option Mode) (mode : Mode) (st : RouterState) : RouterState :=
  { st with traces := st.traces ++
      [{ agent := agentId, mode := modeOverride.getD mode, model := spec.model,
         temperature100 := spec.temperature100,
         responseMimeType := spec.responseMimeType, retriesUsed := attempt,
         durationMs := durationMs, ok := ok, error := error }] }

/-- The loop body of `LLMRouter.withRetries`, structurally recursive on the
number of remaining attempts.  `attempt` is the 0-based attempt index recorded
as `retriesUsed`; each attempt consumes one oracle tick (`st.calls`).
An attempt that returns normally but fails `isValid` throws
`[LLMRouter] Invalid response for <agent>`, which the same catch records. -/
def withRetriesGo {α : Type} (agentId : AgentId) (spec : ModelSpec) (mode : Mode)
    (action : Nat → Except String α) (isValid : α → Bool)
    (modeOverride : Option Mode) :
    Nat → Nat → String → RouterState → Except String α × RouterState
  | 0, _, lastError, st => (.error lastError, st)
  | remaining + 1, attempt, _, st =>
    match action st.calls with
    | .ok result =>
      if isValid result then
        (.ok result,
         recordTrace agentId spec attempt 0 true none modeOverride mode
           { st with calls := st.calls + 1 })
      else
        withRetriesGo agentId spec mode action isValid modeOverride remaining
          (attempt + 1) ("[LLMRouter] Invalid response for " ++ agentName agentId)
          (recordTrace agentId spec attempt 0 false
            (some ("[LLMRouter] Invalid response for " ++ agentName agentId))
            modeOverride mode { st with calls := st.calls + 1 })
    | .error msg =>
      withRetriesGo agentId spec mode action isValid modeOverride remaining
        (attempt + 1) msg
        (recordTrace agentId spec attempt 0 false (some msg) modeOverride mode
          { st with calls := st.calls + 1 })

/-- Embedding of `LLMRouter.withRetries`: `Math.max(1, spec.retries || 1)` attempts
(for a `Nat` budget this is `max 1 spec.retries`), then the last error is
rethrown.  The initial `lastError = null` can never be thrown since at least
one attempt runs. -/
def withRetries {α : Type} (agentId : AgentId) (spec : ModelSpec) (mode : Mode)
    (action : Nat → Except String α) (isValid : α → Bool)
    (modeOverride : Option Mode) (st : RouterState) :
    Except String α × RouterState :=
  withRetriesGo agentId spec mode action isValid modeOverride
    (max 1 spec.retries) 0 "null" st

/-- A router instance: the global `MODEL_MATRIX` it closes over (kept as a
parameter so that claims about unconfigured (mode, stage) cells are statable)
and the mode resolved once in the constructor. -/
structure Router where
  matrix : Mode → AgentId → Option ModelSpec
  mode : Mode

/-- Constructor mode resolution:
`request.enable_l4_loop ? 'quality' : (request.performance_mode || 'fast')`. -/
def resolveMode (enableL4Loop : Bool) (performanceMode : Option Mode) : Mode :=
  if enableL4Loop then .quality else performanceMode.getD .fast

/-- Embedding of `LLMRouter.getSpecForMode`: pure matrix lookup. -/
def getSpecForMode (r : Router) (mode : Mode) (agentId : AgentId) : Option ModelSpec :=
  r.matrix mode agentId

/-- Embedding of `LLMRouter.callJson` under the active mode.  The prompt parts, system
instruction and schema do not influence the control flow and are absorbed in
the oracle; the non-null assertion `MODEL_MATRIX[this.mode][agentId]!` is a
runtime `TypeError` on a `null` cell, modelled as an error result. -/
def callJson {α : Type} (r : Router) (agentId : AgentId)
    (oracle : Nat → Except String α) (st : RouterState) :
    Except String α × RouterState :=
  match r.matrix r.mode agentId with
  | some spec => withRetries agentId spec r.mode oracle (fun _ => true) none st
  | none => (.error ("[LLMRouter] Null spec dereference for " ++ agentName agentId), st)

/-- Embedding of `LLMRouter.callJsonWithMode`: explicit mode; a missing spec throws
`Missing model spec` before any attempt (no trace record). -/
def callJsonWithMode {α : Type} (r : Router) (mode : Mode) (agentId : AgentId)
    (oracle : Nat → Except String α) (st : RouterState) :
    Except String α × RouterState :=
  match r.matrix mode agentId with
  | none => (.error ("[LLMRouter] Missing model spec for " ++ agentName agentId), st)
  | some spec => withRetries agentId spec r.mode oracle (fun _ => true) (some mode) st

/-- Validator of the free-text call shape: `Boolean(text && text.trim())` —
truthy exactly when the text contains a non-whitespace character.  (JS `trim`
is modelled character-wise here because `String.trim` itself does not reduce
inside the kernel.) -/
def textTruthy (s : String) : Bool := s.toList.any (fun c => !c.isWhitespace)

/-- Embedding of `LLMRouter.callText` under the active mode. -/
def callText (r : Router) (agentId : AgentId) (oracle : Nat → Except String String)
    (st : RouterState) : Except String String × RouterState :=
  match r.matrix r.mode agentId with
  | some spec => withRetries agentId spec r.mode oracle textTruthy none st
  | none => (.error ("[LLMRouter] Null spec dereference for " ++ agentName agentId), st)

/-- Embedding of `LLMRouter.callTextWithMode`. -/
def callTextWithMode (r : Router) (mode : Mode) (agentId : AgentId)
    (oracle : Nat → Except String String) (st : RouterState) :
    Except String String × RouterState :=
  match r.matrix mode agentId with
  | none => (.error ("[LLMRouter] Missing model spec for " ++ agentName agentId), st)
  | some spec => withRetries agentId spec r.mode oracle textTruthy (some mode) st

/-- Image-call truthiness: `Boolean(image)` where `image : string | null`. -/
def imgTruthy : Option String → Bool
  | some s => !s.isEmpty
  | none => false

/-- Embedding of `x || y` on a nullable string. -/
def jsOr (o : Option String) (d : String) : String :=
  match o with
  | some s => if s.isEmpty then d else s
  | none => d

/-- Embedding of `x || y` on a plain string. -/
def jsOrStr (s d : String) : String := if s.isEmpty then d else s

/-- Embedding of `LLMRouter.callImageGen`: image call under the active mode.  An attempt
that yields no inline image data returns `null`, which fails the
`Boolean(image)` validator and is retried.  The oracle receives the prompt and
the base image (they are sent to the backend) plus the call counter. -/
def callImageGen (r : Router)
    (oracle : String → String → Nat → Except String (Option String))
    (prompt base64Image : String) (st : RouterState) :
    Except String (Option String) × RouterState :=
  match r.matrix r.mode .IMAGE_GEN with
  | some spec =>
    withRetries .IMAGE_GEN spec r.mode (oracle prompt base64Image) imgTruthy none st
  | none => (.error "[LLMRouter] Null spec dereference for IMAGE_GEN", st)

/-- Embedding of `LLMRouter.callImageGenWithMode`: explicit mode; a missing spec returns
`null` without any attempt or trace record. -/
def callImageGenWithMode (r : Router) (mode : Mode)
    (oracle : String → String → Nat → Except String (Option String))
    (prompt base64Image : String) (st : RouterState) :
    Except String (Option String) × RouterState :=
  match r.matrix mode .IMAGE_GEN with
  | none => (.ok none, st)
  | some spec =>
    withRetries .IMAGE_GEN spec r.mode (oracle prompt base64Image) imgTruthy
      (some mode) st

/-! ## Orchestrator data model (types.ts) -/

/-- Embedding of `UserRequest.platform`. -/
inductive Platform
  | wechat_moments
  | xiaohongshu
deriving DecidableEq, Repr

/-- Embedding of `UnderstandingOut.platform`. -/
inductive UPlatform
  | rednote
  | wechat
  | unknown
deriving DecidableEq, Repr

/-- Embedding of `UserRequest.language`. -/
inductive Lang
  | zh
  | en
deriving DecidableEq, Repr

/-- Embedding of `UserRequest.action`. -/
inductive ReqAction
  | create
  | refine
deriving DecidableEq, Repr

/-- The request fields the orchestrator core reads.  `images` and
`reference_images` hold the base64 data URLs of the uploaded files;
`mood_user` / `intent_user` are kept as strings (their enum values).
The remaining refine context fields (`variant_id`, `refine_mode`,
`refine_instruction`, `refine_target`, `refine_image_index`, ...) are never
read by `runOrchestrator` and are omitted. -/
structure UserRequest where
  images : List String
  reference_images : List String := []
  raw_text : String
  platform : Platform
  mood_user : String
  intent_user : String
  language : Option Lang := none
  enable_l4_loop : Bool := false
  performance_mode : Option Mode := none
  action : Option ReqAction := none
  traceId : Option String := none
deriving DecidableEq, Repr

/-- One entry of `UnderstandingOut.per_image`. -/
structure UnderstandingPerImage where
  image_index : Nat
  what_matters : List String
  risks : List String
  keep_notes : List String
  can_change_notes : List String
deriving DecidableEq, Repr

/-- Embedding of `UnderstandingOut` as parsed from the structured-JSON call. -/
structure UnderstandingOut where
  story_core : String
  user_intent : String
  platform : UPlatform
  mood : String
  suggested_tone : Option String := none
  target_aesthetic : List String := []
  per_image : List UnderstandingPerImage
deriving DecidableEq, Repr

/-- One `DirectorImagePlan`.  Only `image_index` and `nano_prompt_en_v2` are
required by the schema and read by the orchestrator; the optional
`risk_flags`/`plan`/`self_check`/`prompt_meta` sub-objects are never consulted
and are omitted. -/
structure DirectorImagePlan where
  image_index : Nat
  nano_prompt_en_v2 : String
deriving DecidableEq, Repr

/-- Embedding of `DirectorOut`. -/
structure DirectorOut where
  images : List DirectorImagePlan
deriving DecidableEq, Repr

/-- Embedding of `FastGuardrailOut`.  `verdict` is the string the backend returned (the
schema types it as a plain string); `reasons`/`revision_actions` carry only
the instruction strings. -/
structure FastGuardrailOut where
  image_index : Nat
  pass : Bool
  score : Int
  verdict : String
  reasons : List String
  revision_actions : List String
deriving DecidableEq, Repr

/-- Embedding of `ImageQAOut` as parsed from the quality-tier QA call; `reasons` and
`revision_actions` may be absent (the orchestrator applies `|| []`). -/
structure ImageQAOut where
  pass : Bool
  score : Int
  verdict : String
  reasons : Option (List String) := none
  revision_actions : Option (List String) := none
deriving DecidableEq, Repr

/-- Embedding of `GeneratedCopy`. -/
structure GeneratedCopy where
  title : String
  main_text : String
  hash_tags : List String
deriving DecidableEq, Repr

/-- One `perImageScores` entry pushed by the enhancement loop. -/
structure ScoreEntry where
  index : Nat
  score : Int
  verdict : String
deriving DecidableEq, Repr

/-- The `Variant` fields populated by the orchestrator (`visual_plan` and
`layout_plan` are assembled as empty `{} as any` casts and carry nothing). -/
structure Variant where
  id : String
  style_name : String
  usage_hint : String
  creative_rationale : String
  tone_direction : String
  visual_direction : String
  copy : GeneratedCopy
  enhanced_images_base64 : List String
deriving DecidableEq, Repr

/-- The `understanding` summary placed in the response. -/
structure UnderstandingBundleLite where
  story_core : String
  scene : String
  theme : String
deriving DecidableEq, Repr

/-- The populated `debugInfo` fields (`l1_bundle` is an empty cast). -/
structure DebugInfo where
  nano_banana_prompts : List String
  llmTrace : List LLMTraceRecord
  perImageScores : List ScoreEntry
deriving DecidableEq, Repr

/-- Embedding of `OrchestratorResponse` as assembled by `runOrchestrator`. -/
structure OrchestratorResponse where
  traceId : String
  understanding : UnderstandingBundleLite
  visual_director_output : DirectorOut
  empathic_reply : String
  variants : List Variant
  debugInfo : DebugInfo
deriving DecidableEq, Repr

/-- The external generative backend: one oracle per call shape, addressed by
the global attempt counter.  The image oracle additionally receives the prompt
and the base image since the rescue path varies them. -/
structure Backend where
  understandingResult : Nat → Except String UnderstandingOut
  directorResult : Nat → Except String DirectorOut
  fastGuardrailResult : Nat → Except String FastGuardrailOut
  imageQaResult : Nat → Except String ImageQAOut
  copyResult : Nat → Except String GeneratedCopy
  empathyResult : Nat → Except String String
  imageGenResult : String → String → Nat → Except String (Option String)

/-! ## Stage executors (src/unnamed/part_001, second document) -/

/-- JS string interpolation of the `platform` enum value. -/
def platformName : Platform → String
  | .wechat_moments => "wechat_moments"
  | .xiaohongshu => "xiaohongshu"

/-- Embedding of `mapPlatformToUnderstanding`. -/
def mapPlatformToUnderstanding : Platform → UPlatform
  | .xiaohongshu => .rednote
  | _ => .wechat

/-- JS `String.prototype.replace` with a string pattern replaces only the
first occurrence (replacement-pattern `$` escapes are not modelled). -/
def replaceFirst (s pat rep : String) : String :=
  match s.splitOn pat with
  | [] => s
  | [_] => s
  | x :: y :: rest => x ++ rep ++ String.intercalate pat (y :: rest)

/-- The `NANO_NEGATIVE_V3` constant. -/
def NANO_NEGATIVE_V3 : String :=
  "floating bokeh dots, random light spots, lens flare stickers, plastic skin, distorted fingers, text gibberish, clutter, watermarks."

/-- The `FALLBACK_DIRECTOR_TEMPLATE` template literal (leading and trailing
newlines included). -/
def FALLBACK_DIRECTOR_TEMPLATE : String :=
  "\nCinema-grade relight.\nSubject: [SUBJECT].\nLighting: screen-led key light with realistic spill.\nEnvironment: clean dark background, remove clutter, matte/obsidian surfaces.\nColor: neutral skin, cool shadows, high contrast.\nNegative: " ++ NANO_NEGATIVE_V3 ++ "\n"

/-- Embedding of `validateAndConstructPrompt`: substitute the subject into the structural
template and append the platform- and reference-aware action suffix. -/
def validateAndConstructPrompt (plan : DirectorImagePlan) (platform : String)
    (subject : String) (referenceCount : Nat) : String :=
  let p := plan.nano_prompt_en_v2
  let finalPrompt := replaceFirst p "[SUBJECT]" (jsOrStr subject "primary subject")
  let referenceNote :=
    if referenceCount > 0 then "Use reference images for lighting and material style."
    else ""
  (finalPrompt ++ "\n[ACTION]: Clean shadows, keep light physically real. Target: "
    ++ platform ++ " premium look. " ++ referenceNote).trim

/-- Embedding of `understanding.per_image.find(p => p.image_index === idx)?.what_matters[0] || "subject"`. -/
def subjectFor (understanding : UnderstandingOut) (idx : Nat) : String :=
  match understanding.per_image.find? (fun p => p.image_index == idx) with
  | some p =>
    match p.what_matters with
    | s :: _ => jsOrStr s "subject"
    | [] => "subject"
  | none => "subject"

/-- The prompt-rewriting pass applied to each plan after the Director call
(and to the fast-mode and deterministic fallback plans). -/
def rewritePlans (req : UserRequest) (understanding : UnderstandingOut)
    (d : DirectorOut) : DirectorOut :=
  { images := d.images.map fun plan =>
      { plan with nano_prompt_en_v2 :=
          (validateAndConstructPrompt plan (platformName req.platform)
            (subjectFor understanding plan.image_index)
            req.reference_images.length) } }

/-- Embedding of `buildFallbackUnderstanding`: the deterministic network-free bundle. -/
def buildFallbackUnderstanding (req : UserRequest) : UnderstandingOut :=
  { story_core := jsOrStr req.raw_text "No user input provided.",
    user_intent := jsOrStr req.intent_user "unknown",
    platform := mapPlatformToUnderstanding req.platform,
    mood := jsOrStr req.mood_user "neutral",
    suggested_tone := some "professional_clean",
    target_aesthetic := [],
    per_image := (List.range req.images.length).map fun index =>
      { image_index := index, what_matters := ["subject"], risks := [],
        keep_notes := [], can_change_notes := [] } }

/-- Embedding of `buildFallbackDirector`: one templated plan per image. -/
def buildFallbackDirector (req : UserRequest) (understanding : UnderstandingOut) :
    DirectorOut :=
  { images := (List.range req.images.length).map fun index =>
      { image_index := index,
        nano_prompt_en_v2 :=
          replaceFirst FALLBACK_DIRECTOR_TEMPLATE "[SUBJECT]"
            (subjectFor understanding index) } }

/-- Embedding of `runUnderstanding`: one structured-JSON call under the active mode. -/
def runUnderstanding (r : Router) (b : Backend) (st : RouterState) :
    Except String UnderstandingOut × RouterState :=
  callJson r .UNDERSTANDING b.understandingResult st

/-- Embedding of `safeRunUnderstanding`: retry under the active mode, then once under
`fast` if the active mode is `quality` (text-only), then the deterministic
fallback bundle. -/
def safeRunUnderstanding (r : Router) (b : Backend) (req : UserRequest)
    (st : RouterState) : UnderstandingOut × RouterState :=
  match runUnderstanding r b st with
  | (.ok u, st') => (u, st')
  | (.error _, st') =>
    if r.mode = .quality then
      match callJsonWithMode r .fast .UNDERSTANDING b.understandingResult st' with
      | (.ok u, st'') => (u, st'')
      | (.error _, st'') => (buildFallbackUnderstanding req, st'')
    else (buildFallbackUnderstanding req, st')

/-- Embedding of `runVisualDirector`: one structured-JSON call, then the prompt-rewriting
pass over the returned plans. -/
def runVisualDirector (r : Router) (b : Backend) (req : UserRequest)
    (understanding : UnderstandingOut) (st : RouterState) :
    Except String DirectorOut × RouterState :=
  match callJson r .VISUAL_DIRECTOR b.directorResult st with
  | (.ok res, st') => (.ok (rewritePlans req understanding res), st')
  | (.error e, st') => (.error e, st')

/-- Embedding of `safeRunVisualDirector`: no-op on zero images; otherwise the same
three-tier cascade, each tier running the prompt-rewriting pass. -/
def safeRunVisualDirector (r : Router) (b : Backend) (req : UserRequest)
    (understanding : UnderstandingOut) (st : RouterState) :
    DirectorOut × RouterState :=
  if req.images.length = 0 then ({ images := [] }, st)
  else
    match runVisualDirector r b req understanding st with
    | (.ok d, st') => (d, st')
    | (.error _, st') =>
      if r.mode = .quality then
        match callJsonWithMode r .fast .VISUAL_DIRECTOR b.directorResult st' with
        | (.ok d, st'') => (rewritePlans req understanding d, st'')
        | (.error _, st'') =>
          (rewritePlans req understanding (buildFallbackDirector req understanding), st'')
      else
        (rewritePlans req understanding (buildFallbackDirector req understanding), st')

/-- The automatic-pass verdict returned when no guardrail evaluator is
configured for the active mode (and as the final guardrail fallback). -/
def autoPassVerdict (index : Nat) : FastGuardrailOut :=
  { image_index := index, pass := true, score := 0, verdict := "OK",
    reasons := [], revision_actions := [] }

/-- The cross-tier verdict mapping applied to the quality/QA evaluator's
verdict: everything outside {OK, COLOR_CAST, ARTIFACTS} — in particular the
quality-tier-only NEEDS_RECOMPOSE and NEEDS_CLEANUP — maps to TOO_WEAK_CHANGE. -/
def mapQaVerdict (v : String) : String :=
  if v = "OK" then "OK"
  else if v = "COLOR_CAST" then "COLOR_CAST"
  else if v = "ARTIFACTS" then "ARTIFACTS"
  else "TOO_WEAK_CHANGE"

/-- Embedding of `runFastGuardrail`: pick FAST_GUARDRAIL if configured for the active mode,
else IMAGE_QA; if the chosen agent is unconfigured, skip the stage with an
automatic pass; the IMAGE_QA branch maps its verdict down to the shared enum.
The original/enhanced images are sent to the backend but do not influence the
control flow. -/
def runFastGuardrail (r : Router) (b : Backend) (index : Nat)
    (_original _enhanced : String) (st : RouterState) :
    Except String FastGuardrailOut × RouterState :=
  let preferredAgent : AgentId :=
    if (getSpecForMode r r.mode .FAST_GUARDRAIL).isSome then .FAST_GUARDRAIL
    else .IMAGE_QA
  if (getSpecForMode r r.mode preferredAgent).isNone then
    (.ok (autoPassVerdict index), st)
  else if preferredAgent = .IMAGE_QA then
    match callJson r .IMAGE_QA b.imageQaResult st with
    | (.ok qa, st') =>
      (.ok { image_index := index, pass := qa.pass, score := qa.score,
             verdict := mapQaVerdict qa.verdict,
             reasons := qa.reasons.getD [],
             revision_actions := qa.revision_actions.getD [] }, st')
    | (.error e, st') => (.error e, st')
  else
    callJson r .FAST_GUARDRAIL b.fastGuardrailResult st

/-- Embedding of `safeRunFastGuardrail`: on guardrail failure, one fast-mode retry when the
active mode is `quality`, then an automatic pass. -/
def safeRunFastGuardrail (r : Router) (b : Backend) (index : Nat)
    (original enhanced : String) (st : RouterState) :
    FastGuardrailOut × RouterState :=
  match runFastGuardrail r b index original enhanced st with
  | (.ok g, st') => (g, st')
  | (.error _, st') =>
    if r.mode = .quality then
      match callJsonWithMode r .fast .FAST_GUARDRAIL b.fastGuardrailResult st' with
      | (.ok g, st'') => (g, st'')
      | (.error _, st'') => (autoPassVerdict index, st'')
    else (autoPassVerdict index, st')

/-! ## Main orchestrator (runOrchestrator and its per-image loop) -/

/-- The stricter directive appended to the original prompt for the rescue. -/
def rescueSuffix : String :=
  "\n[STRICT]: ELIMINATE ALL FLOATING DOTS. Deepen shadows to black. Make the screen light the ONLY light."

/-- The primary image-generation call with its cross-mode fallback: retries
under the active mode; on exhaustion, one fast-mode call when the active mode
is `quality`; a total failure leaves `resultImg = null`. -/
def genPrimaryWithFallback (r : Router) (b : Backend) (prompt base64Image : String)
    (st : RouterState) : Option String × RouterState :=
  match callImageGen r b.imageGenResult prompt base64Image st with
  | (.ok img, st') => (img, st')
  | (.error _, st') =>
    if r.mode = .quality then
      match callImageGenWithMode r .fast b.imageGenResult prompt base64Image st' with
      | (.ok img, st'') => (img, st'')
      | (.error _, st'') => (none, st'')
    else (none, st')

/-- Embedding of `if (rescueImg) resultImg = rescueImg;` guarded by the rescue's try/catch:
a truthy rescue image unconditionally replaces the kept image. -/
def rescueReplace (rres : Except String (Option String)) (keep : String) : String :=
  match rres with
  | .ok ri => if imgTruthy ri then ri.getD keep else keep
  | .error _ => keep

/-- One iteration of the enhancement loop for image index `i`: look up the
Director plan (no plan means the index is skipped and its slot keeps the empty
string); generate with cross-mode fallback; on a produced image run the
guardrail and, if its verdict fails, perform the single rescue attempt with
the strict prompt, forcing `quality` mode when the active mode is `fast`; the
rescue output is never re-validated; finally `resultImg || original`. -/
def enhanceStep (r : Router) (b : Backend) (directorOut : DirectorOut)
    (originals : List String) (i : Nat) (st : RouterState) :
    String × List ScoreEntry × RouterState :=
  match directorOut.images.find? (fun p => p.image_index == i) with
  | none => ("", [], st)
  | some plan =>
    let orig := originals.getD i ""
    match genPrimaryWithFallback r b plan.nano_prompt_en_v2 orig st with
    | (resultImg, st1) =>
      if imgTruthy resultImg then
        let img := resultImg.getD ""
        let (guard, st2) := safeRunFastGuardrail r b i orig img st1
        let scores := [{ index := i, score := guard.score, verdict := guard.verdict }]
        if guard.pass then (jsOr (some img) orig, scores, st2)
        else
          let rescuePrompt := plan.nano_prompt_en_v2 ++ rescueSuffix
          let rescueMode := if r.mode = .fast then Mode.quality else r.mode
          match callImageGenWithMode r rescueMode b.imageGenResult rescuePrompt orig st2 with
          | (rres, st3) => (jsOr (some (rescueReplace rres img)) orig, scores, st3)
      else (jsOr resultImg orig, [], st1)

/-- The enhancement loop over a list of image indices, threading the router
state and collecting the enhanced slots and score entries in order. -/
def enhanceLoop (r : Router) (b : Backend) (directorOut : DirectorOut)
    (originals : List String) :
    List Nat → RouterState → List String × List ScoreEntry × RouterState
  | [], st => ([], [], st)
  | i :: rest, st =>
    match enhanceStep r b directorOut originals i st with
    | (img, scores, st1) =>
      match enhanceLoop r b directorOut originals rest st1 with
      | (imgs, scoresRest, st2) => (img :: imgs, scores ++ scoresRest, st2)

/-- Embedding of `for (let i = 0; i < req.images.length; i++) ...`. -/
def enhanceAll (r : Router) (b : Backend) (directorOut : DirectorOut)
    (originals : List String) (st : RouterState) :
    List String × List ScoreEntry × RouterState :=
  enhanceLoop r b directorOut originals (List.range originals.length) st

/-- The deterministic empathy fallback:
`req.raw_text ? ("收到你的分享：「" + raw + "」") : "Thanks for sharing. I am here with you."` -/
def fallbackEmpathy (req : UserRequest) : String :=
  if req.raw_text.isEmpty then "Thanks for sharing. I am here with you."
  else "收到你的分享：「" ++ req.raw_text ++ "」"

/-- The empathy section of `runOrchestrator` (part_001 lines 698-711).  Note:
after the catch performs the fast-mode retry, line 710 unconditionally
overwrites `empathicReply` with the deterministic fallback, so a successful
fast-mode result is computed and then discarded. -/
def empathySection (r : Router) (b : Backend) (req : UserRequest)
    (st : RouterState) : String × RouterState :=
  match callText r .EMPATHY b.empathyResult st with
  | (.ok t, st') => (t, st')
  | (.error _, st') =>
    if r.mode = .quality then
      match callTextWithMode r .fast .EMPATHY b.empathyResult st' with
      | (_fastReply, st'') => (fallbackEmpathy req, st'')
    else (fallbackEmpathy req, st')

/-- The deterministic caption fallback:
`{ title: 'Draft', main_text: req.raw_text || '', hash_tags: [] }`. -/
def fallbackCopy (req : UserRequest) : GeneratedCopy :=
  { title := "Draft", main_text := req.raw_text, hash_tags := [] }

/-- The caption section of `runOrchestrator` (part_001 lines 713-732).  As in
the empathy section, line 731 unconditionally overwrites `copy` with the
deterministic fallback after the catch, discarding a successful fast-mode
result. -/
def copySection (r : Router) (b : Backend) (req : UserRequest)
    (st : RouterState) : GeneratedCopy × RouterState :=
  match callJson r .COPY b.copyResult st with
  | (.ok c, st') => (c, st')
  | (.error _, st') =>
    if r.mode = .quality then
      match callJsonWithMode r .fast .COPY b.copyResult st' with
      | (_fastCopy, st'') => (fallbackCopy req, st'')
    else (fallbackCopy req, st')

/-- Embedding of `runOrchestrator`.  `freshId` stands for the nondeterministic
`generateTraceId()` value; the request's trace id is reused when present.
There is no rejection path for a refine request without a trace id: the
pipeline simply proceeds. -/
def runOrchestrator (b : Backend) (req : UserRequest) (freshId : String) :
    OrchestratorResponse :=
  let traceId := req.traceId.getD freshId
  let r : Router := { matrix := MODEL_MATRIX,
                      mode := resolveMode req.enable_l4_loop req.performance_mode }
  let originalBase64 := req.images
  let st0 : RouterState := { traces := [], calls := 0 }
  match safeRunUnderstanding r b req st0 with
  | (understanding, st1) =>
    match safeRunVisualDirector r b req understanding st1 with
    | (directorOut, st2) =>
      match enhanceAll r b directorOut originalBase64 st2 with
      | (enhancedImages, perImageScores, st3) =>
        match empathySection r b req st3 with
        | (empathicReply, st4) =>
          match copySection r b req st4 with
          | (copy, st5) =>
            { traceId := traceId,
              understanding := { story_core := understanding.story_core,
                                 scene := "V3", theme := understanding.mood },
              visual_director_output := directorOut,
              empathic_reply := empathicReply,
              variants := [{
                id := traceId ++ "_v1",
                style_name := "Amplify Master",
                usage_hint := "Social ready",
                creative_rationale := "Structural relighting and background cleanup",
                tone_direction := jsOr understanding.suggested_tone "Cinematic",
                visual_direction := "V3 Structural Overhaul",
                copy := copy,
                enhanced_images_base64 := enhancedImages }],
              debugInfo := {
                nano_banana_prompts := directorOut.images.map (·.nano_prompt_en_v2),
                llmTrace := st5.traces,
                perImageScores := perImageScores } }

/-! ## Concrete fixtures used by counterexamples and witnesses -/

/-- A small well-formed understanding result. -/
def sampleUnderstanding : UnderstandingOut :=
  { story_core := "core", user_intent := "just_record", platform := .wechat,
    mood := "happy", suggested_tone := some "casual_witty",
    target_aesthetic := [], per_image := [] }

/-- A backend whose every call succeeds on the first attempt. -/
def backendAllOk : Backend :=
  { understandingResult := fun _ => .ok sampleUnderstanding,
    directorResult := fun _ => .ok { images := [] },
    fastGuardrailResult := fun _ => .ok (autoPassVerdict 0),
    imageQaResult := fun _ => .ok { pass := true, score := 1, verdict := "OK" },
    copyResult := fun _ => .ok { title := "T", main_text := "M", hash_tags := [] },
    empathyResult := fun _ => .ok "warm reply",
    imageGenResult := fun _ _ _ => .ok (some "data:image/png;base64,enc") }

/-- A backend whose every call fails. -/
def backendAllFail : Backend :=
  { understandingResult := fun _ => .error "backend down",
    directorResult := fun _ => .error "backend down",
    fastGuardrailResult := fun _ => .error "backend down",
    imageQaResult := fun _ => .error "backend down",
    copyResult := fun _ => .error "backend down",
    empathyResult := fun _ => .error "backend down",
    imageGenResult := fun _ _ _ => .error "backend down" }

/-- A `refine` request carrying no trace id. -/
def reqRefineNoTrace : UserRequest :=
  { images := [], raw_text := "hi", platform := .wechat_moments,
    mood_user := "happy", intent_user := "just_record",
    performance_mode := some .fast, action := some .refine, traceId := none }

/-- A zero-image quality-mode create request. -/
def reqQualityNote : UserRequest :=
  { images := [], raw_text := "note", platform := .wechat_moments,
    mood_user := "tired", intent_user := "seek_empathy",
    performance_mode := some .quality }

/-- A backend for `reqQualityNote` whose quality-tier EMPATHY and COPY calls
always fail while the fast-tier retries succeed.  Call schedule: tick 0 is the
successful quality UNDERSTANDING attempt; ticks 1-2 the failing quality
EMPATHY attempts; tick 3 the successful fast EMPATHY attempt; ticks 4-6 the
failing quality COPY attempts; tick 7 the successful fast COPY attempt. -/
def backendFastTierOnlyText : Backend :=
  { understandingResult := fun _ => .ok sampleUnderstanding,
    directorResult := fun _ => .error "backend down",
    fastGuardrailResult := fun _ => .error "backend down",
    imageQaResult := fun _ => .error "backend down",
    copyResult := fun n =>
      if n == 7 then .ok { title := "FastTitle", main_text := "FastBody", hash_tags := ["#fast"] }
      else .error "backend down",
    empathyResult := fun n =>
      if n == 3 then .ok "fast warm reply" else .error "backend down",
    imageGenResult := fun _ _ _ => .error "backend down" }

/-- A quality-mode request with `language = en`. -/
def reqHelloEn : UserRequest :=
  { images := [], raw_text := "hello", platform := .wechat_moments,
    mood_user := "sad", intent_user := "seek_empathy",
    language := some .en, performance_mode := some .quality }

/-- The same request with `language = zh`. -/
def reqHelloZh : UserRequest :=
  { images := [], raw_text := "hello", platform := .wechat_moments,
    mood_user := "sad", intent_user := "seek_empathy",
    language := some .zh, performance_mode := some .quality }

/-! ## Observables of the retry loop -/

/-- Whether the attempt consuming oracle tick `c` counts as failed: the
attempt threw, or it returned a result the validator rejects. -/
def attemptFails {α : Type} (action : Nat → Except String α) (isValid : α → Bool)
    (c : Nat) : Bool :=
  match action c with
  | .ok r => !isValid r
  | .error _ => true

/-- The error message recorded for the failed attempt consuming tick `c`. -/
def failMsg {α : Type} (action : Nat → Except String α) (agentId : AgentId)
    (c : Nat) : String :=
  match action c with
  | .ok _ => "[LLMRouter] Invalid response for " ++ agentName agentId
  | .error m => m

/-- The trace record of one failed attempt. -/
def failRecord (agentId : AgentId) (spec : ModelSpec) (modeOverride : Option Mode)
    (mode : Mode) (attempt : Nat) (msg : String) : LLMTraceRecord :=
  { agent := agentId, mode := modeOverride.getD mode, model := spec.model,
    temperature100 := spec.temperature100,
    responseMimeType := spec.responseMimeType, retriesUsed := attempt,
    durationMs := 0, ok := false, error := some msg }

/-- The trace record of one successful attempt. -/
def okRecord (agentId : AgentId) (spec : ModelSpec) (modeOverride : Option Mode)
    (mode : Mode) (attempt : Nat) : LLMTraceRecord :=
  { agent := agentId, mode := modeOverride.getD mode, model := spec.model,
    temperature100 := spec.temperature100,
    responseMimeType := spec.responseMimeType, retriesUsed := attempt,
    durationMs := 0, ok := true, error := none }

/-- The list of failure records produced by `n` consecutive failed attempts
starting at attempt index `att` and oracle tick `c`: exactly one record per
attempt. -/
def failTrail {α : Type} (action : Nat → Except String α) (agentId : AgentId)
    (spec : ModelSpec) (modeOverride : Option Mode) (mode : Mode) :
    Nat → Nat → Nat → List LLMTraceRecord
  | _, _, 0 => []
  | att, c, n + 1 =>
    failRecord agentId spec modeOverride mode att (failMsg action agentId c) ::
      failTrail action agentId spec modeOverride mode (att + 1) (c + 1) n

/-- The error rethrown after `n` exhausted attempts starting at tick `c`
(`le` is the incoming `lastError`, thrown only when no attempt ran). -/
def lastErrShown {α : Type} (action : Nat → Except String α) (agentId : AgentId)
    (le : String) (c : Nat) : Nat → String
  | 0 => le
  | n + 1 => failMsg action agentId (c + n)

/-- Embedding of `st.traces` grows and nothing already recorded is mutated or dropped. -/
def TraceExtends (st st' : RouterState) : Prop :=
  ∃ t, st'.traces = st.traces ++ t

theorem traceExtends_refl (st : RouterState) : TraceExtends st st :=
  ⟨[], by simp⟩

theorem traceExtends_trans {s1 s2 s3 : RouterState}
    (h1 : TraceExtends s1 s2) (h2 : TraceExtends s2 s3) : TraceExtends s1 s3 := by
  obtain ⟨t1, h1⟩ := h1
  obtain ⟨t2, h2⟩ := h2
  exact ⟨t1 ++ t2, by simp [h2, h1]⟩

theorem traceExtends_length {s1 s2 : RouterState} (h : TraceExtends s1 s2) :
    s1.traces.length ≤ s2.traces.length := by
  obtain ⟨t, h⟩ := h
  simp [h]

/-! ## Core lemmas about the retry loop -/

theorem recordTrace_ok_eq (agentId : AgentId) (spec : ModelSpec) (att : Nat)
    (mo : Option Mode) (mode : Mode) (st : RouterState) :
    recordTrace agentId spec att 0 true none mo mode st =
      { st with traces := st.traces ++ [okRecord agentId spec mo mode att] } := rfl

theorem recordTrace_fail_eq (agentId : AgentId) (spec : ModelSpec) (att : Nat)
    (m : String) (mo : Option Mode) (mode : Mode) (st : RouterState) :
    recordTrace agentId spec att 0 false (some m) mo mode st =
      { st with traces := st.traces ++ [failRecord agentId spec mo mode att m] } := rfl

/-- Peeling one failed attempt off the rethrown-error computation. -/
theorem lastErrShown_succ {α : Type} (action : Nat → Except String α)
    (agentId : AgentId) (le : String) (c n : Nat) :
    lastErrShown action agentId le c (n + 1) =
      lastErrShown action agentId (failMsg action agentId c) (c + 1) n := by
  cases n with
  | zero => simp [lastErrShown]
  | succ m =>
    simp only [lastErrShown]
    congr 1
    omega

/-- Exhaustion: when every attempt within the remaining budget fails, the
loop records one failure per attempt and rethrows the last error. -/
theorem withRetriesGo_all_fail {α : Type} (agentId : AgentId) (spec : ModelSpec)
    (mode : Mode) (action : Nat → Except String α) (isValid : α → Bool)
    (mo : Option Mode) :
    ∀ (rem att : Nat) (le : String) (st : RouterState),
      (∀ k, k < rem → attemptFails action isValid (st.calls + k) = true) →
      withRetriesGo agentId spec mode action isValid mo rem att le st =
        (.error (lastErrShown action agentId le st.calls rem),
         { traces := st.traces ++ failTrail action agentId spec mo mode att st.calls rem,
           calls := st.calls + rem }) := by
  intro rem
  induction rem with
  | zero =>
    intro att le st _
    simp [withRetriesGo, failTrail, lastErrShown]
  | succ n ih =>
    intro att le st h
    have h0 : attemptFails action isValid st.calls = true := by
      have := h 0 (Nat.succ_pos n)
      simpa using this
    cases hact : action st.calls with
    | ok r =>
      have hval : isValid r = false := by
        unfold attemptFails at h0
        rw [hact] at h0
        simpa using h0
      have hmsg : failMsg action agentId st.calls =
          "[LLMRouter] Invalid response for " ++ agentName agentId := by
        unfold failMsg; rw [hact]
      have hrec := ih (att + 1)
        ("[LLMRouter] Invalid response for " ++ agentName agentId)
        (recordTrace agentId spec att 0 false
          (some ("[LLMRouter] Invalid response for " ++ agentName agentId))
          mo mode { st with calls := st.calls + 1 })
        (by
          intro k hk
          have := h (k + 1) (by omega)
          simpa [recordTrace, Nat.add_assoc, Nat.add_comm, Nat.add_left_comm] using this)
      unfold withRetriesGo
      rw [hact]
      simp only [hval, Bool.false_eq_true, if_false]
      rw [hrec, lastErrShown_succ]
      simp [recordTrace, failRecord, failTrail, hmsg,
        Nat.add_assoc, Nat.add_comm, Nat.add_left_comm]
    | error m =>
      have hmsg : failMsg action agentId st.calls = m := by
        unfold failMsg; rw [hact]
      have hrec := ih (att + 1) m
        (recordTrace agentId spec att 0 false (some m) mo mode
          { st with calls := st.calls + 1 })
        (by
          intro k hk
          have := h (k + 1) (by omega)
          simpa [recordTrace, Nat.add_assoc, Nat.add_comm, Nat.add_left_comm] using this)
      unfold withRetriesGo
      rw [hact]
      refine hrec.trans ?_
      rw [lastErrShown_succ]
      simp [recordTrace, failRecord, failTrail, hmsg,
        Nat.add_assoc, Nat.add_comm, Nat.add_left_comm]

/-- First acceptance: if attempts `0..j-1` fail and attempt `j` (inside the
budget) returns a validated result, the loop stops at attempt `j`, returns
its result, and has recorded `j` failures plus one success. -/
theorem withRetriesGo_first_success {α : Type} (agentId : AgentId)
    (spec : ModelSpec) (mode : Mode) (action : Nat → Except String α)
    (isValid : α → Bool) (mo : Option Mode) :
    ∀ (j rem att : Nat) (le : String) (st : RouterState),
      j < rem →
      (∀ k, k < j → attemptFails action isValid (st.calls + k) = true) →
      attemptFails action isValid (st.calls + j) = false →
      withRetriesGo agentId spec mode action isValid mo rem att le st =
        (action (st.calls + j),
         { traces := st.traces ++ failTrail action agentId spec mo mode att st.calls j
             ++ [okRecord agentId spec mo mode (att + j)],
           calls := st.calls + j + 1 }) := by
  intro j
  induction j with
  | zero =>
    intro rem att le st hrem _ hok
    cases rem with
    | zero => omega
    | succ n =>
      cases hact : action st.calls with
      | ok r =>
        have hval : isValid r = true := by
          unfold attemptFails at hok
          rw [show st.calls + 0 = st.calls from rfl, hact] at hok
          simpa using hok
        unfold withRetriesGo
        rw [hact]
        simp [hval, hact, recordTrace_ok_eq, failTrail]
      | error m =>
        unfold attemptFails at hok
        rw [show st.calls + 0 = st.calls from rfl, hact] at hok
        simp at hok
  | succ j ih =>
    intro rem att le st hrem h hok
    cases rem with
    | zero => omega
    | succ n =>
      have h0 : attemptFails action isValid st.calls = true := by
        have := h 0 (Nat.succ_pos j)
        simpa using this
      cases hact : action st.calls with
      | ok r =>
        have hval : isValid r = false := by
          unfold attemptFails at h0
          rw [hact] at h0
          simpa using h0
        have hmsg : failMsg action agentId st.calls =
            "[LLMRouter] Invalid response for " ++ agentName agentId := by
          unfold failMsg; rw [hact]
        have hrec := ih n (att + 1)
          ("[LLMRouter] Invalid response for " ++ agentName agentId)
          (recordTrace agentId spec att 0 false
            (some ("[LLMRouter] Invalid response for " ++ agentName agentId))
            mo mode { st with calls := st.calls + 1 })
          (by omega)
          (by
            intro k hk
            have := h (k + 1) (by omega)
            simpa [recordTrace, Nat.add_assoc, Nat.add_comm, Nat.add_left_comm] using this)
          (by
            have heq : st.calls + 1 + j = st.calls + (j + 1) := by omega
            simpa [recordTrace, heq] using hok)
        unfold withRetriesGo
        rw [hact]
        simp only [hval, Bool.false_eq_true, if_false]
        rw [hrec]
        simp [recordTrace, failRecord, okRecord, failTrail, hmsg,
          Nat.add_assoc, Nat.add_comm, Nat.add_left_comm]
      | error m =>
        have hmsg : failMsg action agentId st.calls = m := by
          unfold failMsg; rw [hact]
        have hrec := ih n (att + 1) m
          (recordTrace agentId spec att 0 false (some m) mo mode
            { st with calls := st.calls + 1 })
          (by omega)
          (by
            intro k hk
            have := h (k + 1) (by omega)
            simpa [recordTrace, Nat.add_assoc, Nat.add_comm, Nat.add_left_comm] using this)
          (by
            have heq : st.calls + 1 + j = st.calls + (j + 1) := by omega
            simpa [recordTrace, heq] using hok)
        unfold withRetriesGo
        rw [hact]
        refine hrec.trans ?_
        simp [recordTrace, failRecord, okRecord, failTrail, hmsg,
          Nat.add_assoc, Nat.add_comm, Nat.add_left_comm]

/-- The retry loop only ever appends to the trace list. -/
theorem withRetriesGo_extends {α : Type} (agentId : AgentId) (spec : ModelSpec)
    (mode : Mode) (action : Nat → Except String α) (isValid : α → Bool)
    (mo : Option Mode) :
    ∀ (rem att : Nat) (le : String) (st : RouterState),
      TraceExtends st (withRetriesGo agentId spec mode action isValid mo rem att le st).2 := by
  intro rem
  induction rem with
  | zero =>
    intro att le st
    exact ⟨[], by simp [withRetriesGo]⟩
  | succ n ih =>
    intro att le st
    unfold withRetriesGo
    cases hact : action st.calls with
    | ok r =>
      cases hval : isValid r with
      | true =>
        simp only [hval, if_true]
        exact ⟨_, rfl⟩
      | false =>
        simp only [hval, Bool.false_eq_true, if_false]
        exact traceExtends_trans ⟨_, rfl⟩ (ih _ _ _)
    | error m =>
      exact traceExtends_trans ⟨_, rfl⟩ (ih _ _ _)

/-- At least one attempt runs, so at least one record is appended. -/
theorem withRetriesGo_grows {α : Type} (agentId : AgentId) (spec : ModelSpec)
    (mode : Mode) (action : Nat → Except String α) (isValid : α → Bool)
    (mo : Option Mode) :
    ∀ (rem att : Nat) (le : String) (st : RouterState), 1 ≤ rem →
      st.traces.length <
        (withRetriesGo agentId spec mode action isValid mo rem att le st).2.traces.length := by
  intro rem
  induction rem with
  | zero => intro att le st h; omega
  | succ n _ =>
    intro att le st _
    unfold withRetriesGo
    cases hact : action st.calls with
    | ok r =>
      cases hval : isValid r with
      | true =>
        simp [hval, recordTrace]
      | false =>
        simp only [hval, Bool.false_eq_true, if_false]
        show st.traces.length <
          (withRetriesGo agentId spec mode action isValid mo n (att + 1)
            ("[LLMRouter] Invalid response for " ++ agentName agentId)
            (recordTrace agentId spec att 0 false
              (some ("[LLMRouter] Invalid response for " ++ agentName agentId))
              mo mode { st with calls := st.calls + 1 })).2.traces.length
        have hlen := traceExtends_length (withRetriesGo_extends agentId spec mode
          action isValid mo n (att + 1)
          ("[LLMRouter] Invalid response for " ++ agentName agentId)
          (recordTrace agentId spec att 0 false
            (some ("[LLMRouter] Invalid response for " ++ agentName agentId))
            mo mode { st with calls := st.calls + 1 }))
        simp only [recordTrace, List.length_append, List.length_singleton] at hlen ⊢
        omega
    | error m =>
      show st.traces.length <
        (withRetriesGo agentId spec mode action isValid mo n (att + 1) m
          (recordTrace agentId spec att 0 false (some m) mo mode
            { st with calls := st.calls + 1 })).2.traces.length
      have hlen := traceExtends_length (withRetriesGo_extends agentId spec mode
        action isValid mo n (att + 1) m
        (recordTrace agentId spec att 0 false (some m) mo mode
          { st with calls := st.calls + 1 }))
      simp only [recordTrace, List.length_append, List.length_singleton] at hlen ⊢
      omega

theorem withRetries_extends {α : Type} (agentId : AgentId) (spec : ModelSpec)
    (mode : Mode) (action : Nat → Except String α) (isValid : α → Bool)
    (mo : Option Mode) (st : RouterState) :
    TraceExtends st (withRetries agentId spec mode action isValid mo st).2 :=
  withRetriesGo_extends agentId spec mode action isValid mo _ 0 "null" st

theorem withRetries_grows {α : Type} (agentId : AgentId) (spec : ModelSpec)
    (mode : Mode) (action : Nat → Except String α) (isValid : α → Bool)
    (mo : Option Mode) (st : RouterState) :
    st.traces.length < (withRetries agentId spec mode action isValid mo st).2.traces.length :=
  withRetriesGo_grows agentId spec mode action isValid mo _ 0 "null" st
    (Nat.le_max_left 1 spec.retries)

/-! ## Append-only facts for every call shape and stage -/

theorem callJson_extends {α : Type} (r : Router) (agentId : AgentId)
    (oracle : Nat → Except String α) (st : RouterState) :
    TraceExtends st (callJson r agentId oracle st).2 := by
  unfold callJson
  cases h : r.matrix r.mode agentId with
  | none => exact traceExtends_refl st
  | some spec => exact withRetries_extends _ _ _ _ _ _ _

theorem callJsonWithMode_extends {α : Type} (r : Router) (mode : Mode)
    (agentId : AgentId) (oracle : Nat → Except String α) (st : RouterState) :
    TraceExtends st (callJsonWithMode r mode agentId oracle st).2 := by
  unfold callJsonWithMode
  cases h : r.matrix mode agentId with
  | none => exact traceExtends_refl st
  | some spec => exact withRetries_extends _ _ _ _ _ _ _

theorem callText_extends (r : Router) (agentId : AgentId)
    (oracle : Nat → Except String String) (st : RouterState) :
    TraceExtends st (callText r agentId oracle st).2 := by
  unfold callText
  cases h : r.matrix r.mode agentId with
  | none => exact traceExtends_refl st
  | some spec => exact withRetries_extends _ _ _ _ _ _ _

theorem callTextWithMode_extends (r : Router) (mode : Mode) (agentId : AgentId)
    (oracle : Nat → Except String String) (st : RouterState) :
    TraceExtends st (callTextWithMode r mode agentId oracle st).2 := by
  unfold callTextWithMode
  cases h : r.matrix mode agentId with
  | none => exact traceExtends_refl st
  | some spec => exact withRetries_extends _ _ _ _ _ _ _

theorem callImageGen_extends (r : Router)
    (oracle : String → String → Nat → Except String (Option String))
    (prompt base64Image : String) (st : RouterState) :
    TraceExtends st (callImageGen r oracle prompt base64Image st).2 := by
  unfold callImageGen
  cases h : r.matrix r.mode .IMAGE_GEN with
  | none => exact traceExtends_refl st
  | some spec => exact withRetries_extends _ _ _ _ _ _ _

theorem callImageGenWithMode_extends (r : Router) (mode : Mode)
    (oracle : String → String → Nat → Except String (Option String))
    (prompt base64Image : String) (st : RouterState) :
    TraceExtends st (callImageGenWithMode r mode oracle prompt base64Image st).2 := by
  unfold callImageGenWithMode
  cases h : r.matrix mode .IMAGE_GEN with
  | none => exact traceExtends_refl st
  | some spec => exact withRetries_extends _ _ _ _ _ _ _

theorem safeRunUnderstanding_extends (r : Router) (b : Backend)
    (req : UserRequest) (st : RouterState) :
    TraceExtends st (safeRunUnderstanding r b req st).2 := by
  unfold safeRunUnderstanding runUnderstanding
  rcases h1 : callJson r .UNDERSTANDING b.understandingResult st with ⟨res, st1⟩
  have e1 : TraceExtends st st1 := by
    have := callJson_extends r .UNDERSTANDING b.understandingResult st
    rwa [h1] at this
  cases res with
  | ok u => simpa [h1] using e1
  | error e =>
    simp only [h1]
    by_cases hm : r.mode = .quality
    · simp only [hm, if_true]
      rcases h2 : callJsonWithMode r .fast .UNDERSTANDING b.understandingResult st1 with ⟨res2, st2⟩
      have e2 : TraceExtends st1 st2 := by
        have := callJsonWithMode_extends r .fast .UNDERSTANDING b.understandingResult st1
        rwa [h2] at this
      cases res2 with
      | ok u => simpa using traceExtends_trans e1 e2
      | error e => simpa using traceExtends_trans e1 e2
    · simp only [hm, if_false]
      simpa using e1

theorem safeRunVisualDirector_extends (r : Router) (b : Backend)
    (req : UserRequest) (understanding : UnderstandingOut) (st : RouterState) :
    TraceExtends st (safeRunVisualDirector r b req understanding st).2 := by
  unfold safeRunVisualDirector
  by_cases h0 : req.images.length = 0
  · simp only [h0, if_true]
    exact traceExtends_refl st
  · simp only [h0, if_false]
    unfold runVisualDirector
    rcases h1 : callJson r .VISUAL_DIRECTOR b.directorResult st with ⟨res, st1⟩
    have e1 : TraceExtends st st1 := by
      have := callJson_extends r .VISUAL_DIRECTOR b.directorResult st
      rwa [h1] at this
    cases res with
    | ok d => simpa [h1] using e1
    | error e =>
      simp only [h1]
      by_cases hm : r.mode = .quality
      · simp only [hm, if_true]
        rcases h2 : callJsonWithMode r .fast .VISUAL_DIRECTOR b.directorResult st1 with ⟨res2, st2⟩
        have e2 : TraceExtends st1 st2 := by
          have := callJsonWithMode_extends r .fast .VISUAL_DIRECTOR b.directorResult st1
          rwa [h2] at this
        cases res2 with
        | ok d => simpa using traceExtends_trans e1 e2
        | error e => simpa using traceExtends_trans e1 e2
      · simp only [hm, if_false]
        simpa using e1

theorem safeRunFastGuardrail_extends (r : Router) (b : Backend) (index : Nat)
    (original enhanced : String) (st : RouterState) :
    TraceExtends st (safeRunFastGuardrail r b index original enhanced st).2 := by
  have hrun : TraceExtends st (runFastGuardrail r b index original enhanced st).2 := by
    unfold runFastGuardrail
    by_cases hskip : (getSpecForMode r r.mode
        (if (getSpecForMode r r.mode .FAST_GUARDRAIL).isSome then .FAST_GUARDRAIL
         else .IMAGE_QA)).isNone
    · simp only [hskip, if_true]
      exact traceExtends_refl st
    · simp only [hskip, if_false]
      by_cases hqa : (if (getSpecForMode r r.mode .FAST_GUARDRAIL).isSome then
          AgentId.FAST_GUARDRAIL else AgentId.IMAGE_QA) = AgentId.IMAGE_QA
      · simp only [hqa, if_true]
        rcases h1 : callJson r .IMAGE_QA b.imageQaResult st with ⟨res, st1⟩
        have e1 : TraceExtends st st1 := by
          have := callJson_extends r .IMAGE_QA b.imageQaResult st
          rwa [h1] at this
        cases res with
        | ok qa => simpa using e1
        | error e => simpa using e1
      · simp only [hqa, if_false]
        exact callJson_extends r .FAST_GUARDRAIL b.fastGuardrailResult st
  unfold safeRunFastGuardrail
  rcases h1 : runFastGuardrail r b index original enhanced st with ⟨res, st1⟩
  have e1 : TraceExtends st st1 := by rwa [h1] at hrun
  cases res with
  | ok g => simpa using e1
  | error e =>
    simp only []
    by_cases hm : r.mode = .quality
    · simp only [hm, if_true]
      rcases h2 : callJsonWithMode r .fast .FAST_GUARDRAIL b.fastGuardrailResult st1 with ⟨res2, st2⟩
      have e2 : TraceExtends st1 st2 := by
        have := callJsonWithMode_extends r .fast .FAST_GUARDRAIL b.fastGuardrailResult st1
        rwa [h2] at this
      cases res2 with
      | ok g => simpa using traceExtends_trans e1 e2
      | error e => simpa using traceExtends_trans e1 e2
    · simp only [hm, if_false]
      simpa using e1

theorem genPrimaryWithFallback_extends (r : Router) (b : Backend)
    (prompt base64Image : String) (st : RouterState) :
    TraceExtends st (genPrimaryWithFallback r b prompt base64Image st).2 := by
  unfold genPrimaryWithFallback
  rcases h1 : callImageGen r b.imageGenResult prompt base64Image st with ⟨res, st1⟩
  have e1 : TraceExtends st st1 := by
    have := callImageGen_extends r b.imageGenResult prompt base64Image st
    rwa [h1] at this
  cases res with
  | ok img => simpa using e1
  | error e =>
    simp only []
    by_cases hm : r.mode = .quality
    · simp only [hm, if_true]
      rcases h2 : callImageGenWithMode r .fast b.imageGenResult prompt base64Image st1 with ⟨res2, st2⟩
      have e2 : TraceExtends st1 st2 := by
        have := callImageGenWithMode_extends r .fast b.imageGenResult prompt base64Image st1
        rwa [h2] at this
      cases res2 with
      | ok img => simpa using traceExtends_trans e1 e2
      | error e => simpa using traceExtends_trans e1 e2
    · simp only [hm, if_false]
      simpa using e1

theorem enhanceStep_extends (r : Router) (b : Backend) (directorOut : DirectorOut)
    (originals : List String) (i : Nat) (st : RouterState) :
    TraceExtends st (enhanceStep r b directorOut originals i st).2.2 := by
  unfold enhanceStep
  cases hplan : directorOut.images.find? (fun p => p.image_index == i) with
  | none => exact traceExtends_refl st
  | some plan =>
    simp only []
    rcases h1 : genPrimaryWithFallback r b plan.nano_prompt_en_v2 (originals.getD i "") st with ⟨resultImg, st1⟩
    have e1 : TraceExtends st st1 := by
      have := genPrimaryWithFallback_extends r b plan.nano_prompt_en_v2 (originals.getD i "") st
      rwa [h1] at this
    cases ht : imgTruthy resultImg with
    | false => simpa [ht] using e1
    | true =>
      simp only [ht, if_true]
      rcases h2 : safeRunFastGuardrail r b i (originals.getD i "") (resultImg.getD "") st1 with ⟨guard, st2⟩
      have e2 : TraceExtends st1 st2 := by
        have := safeRunFastGuardrail_extends r b i (originals.getD i "") (resultImg.getD "") st1
        rwa [h2] at this
      cases hp : guard.pass with
      | true => simpa [hp] using traceExtends_trans e1 e2
      | false =>
        simp only [hp, Bool.false_eq_true, if_false]
        rcases h3 : callImageGenWithMode r (if r.mode = .fast then Mode.quality else r.mode)
            b.imageGenResult (plan.nano_prompt_en_v2 ++ rescueSuffix) (originals.getD i "") st2 with ⟨rres, st3⟩
        have e3 : TraceExtends st2 st3 := by
          have := callImageGenWithMode_extends r (if r.mode = .fast then Mode.quality else r.mode)
            b.imageGenResult (plan.nano_prompt_en_v2 ++ rescueSuffix) (originals.getD i "") st2
          rwa [h3] at this
        simpa using traceExtends_trans e1 (traceExtends_trans e2 e3)

theorem enhanceLoop_extends (r : Router) (b : Backend) (directorOut : DirectorOut)
    (originals : List String) :
    ∀ (idxs : List Nat) (st : RouterState),
      TraceExtends st (enhanceLoop r b directorOut originals idxs st).2.2 := by
  intro idxs
  induction idxs with
  | nil => intro st; exact traceExtends_refl st
  | cons i rest ih =>
    intro st
    unfold enhanceLoop
    rcases h1 : enhanceStep r b directorOut originals i st with ⟨img, scores, st1⟩
    have e1 : TraceExtends st st1 := by
      have := enhanceStep_extends r b directorOut originals i st
      rwa [h1] at this
    rcases h2 : enhanceLoop r b directorOut originals rest st1 with ⟨imgs, scoresRest, st2⟩
    have e2 : TraceExtends st1 st2 := by
      have := ih st1
      rwa [h2] at this
    simpa [h1, h2] using traceExtends_trans e1 e2

theorem empathySection_extends (r : Router) (b : Backend) (req : UserRequest)
    (st : RouterState) :
    TraceExtends st (empathySection r b req st).2 := by
  unfold empathySection
  rcases h1 : callText r .EMPATHY b.empathyResult st with ⟨res, st1⟩
  have e1 : TraceExtends st st1 := by
    have := callText_extends r .EMPATHY b.empathyResult st
    rwa [h1] at this
  cases res with
  | ok t => simpa using e1
  | error e =>
    simp only []
    by_cases hm : r.mode = .quality
    · simp only [hm, if_true]
      rcases h2 : callTextWithMode r .fast .EMPATHY b.empathyResult st1 with ⟨res2, st2⟩
      have e2 : TraceExtends st1 st2 := by
        have := callTextWithMode_extends r .fast .EMPATHY b.empathyResult st1
        rwa [h2] at this
      simpa using traceExtends_trans e1 e2
    · simp only [hm, if_false]
      simpa using e1

/-- Embedding of `failTrail` holds exactly one record per failed attempt. -/
theorem failTrail_length {α : Type} (action : Nat → Except String α)
    (agentId : AgentId) (spec : ModelSpec) (mo : Option Mode) (mode : Mode) :
    ∀ (att c n : Nat),
      (failTrail action agentId spec mo mode att c n).length = n := by
  intro att c n
  induction n generalizing att c with
  | zero => simp [failTrail]
  | succ m ih => simp [failTrail, ih]

/-- With at least one attempt, the rethrown error is the last attempt's. -/
theorem lastErrShown_pos {α : Type} (action : Nat → Except String α)
    (agentId : AgentId) (le : String) (c n : Nat) (h : 1 ≤ n) :
    lastErrShown action agentId le c n = failMsg action agentId (c + (n - 1)) := by
  cases n with
  | zero => omega
  | succ m => simp [lastErrShown]

/-- The enhancement loop yields one output slot per index, whatever the
backend does at any index. -/
theorem enhanceLoop_length (r : Router) (b : Backend) (d : DirectorOut)
    (originals : List String) :
    ∀ (idxs : List Nat) (st : RouterState),
      (enhanceLoop r b d originals idxs st).1.length = idxs.length := by
  intro idxs
  induction idxs with
  | nil => intro st; simp [enhanceLoop]
  | cons i rest ih =>
    intro st
    unfold enhanceLoop
    rcases h1 : enhanceStep r b d originals i st with ⟨img, scores, st1⟩
    simp [h1, ih st1]

/-- Every position of the loop's output is the output of a normal
`enhanceStep` run at that index: no index's failure short-circuits another's
processing. -/
theorem enhanceLoop_getD (r : Router) (b : Backend) (d : DirectorOut)
    (originals : List String) :
    ∀ (idxs : List Nat) (st : RouterState) (k : Nat), k < idxs.length →
      ∃ stk, (enhanceLoop r b d originals idxs st).1.getD k "" =
        (enhanceStep r b d originals (idxs.getD k 0) stk).1 := by
  intro idxs
  induction idxs with
  | nil => intro st k hk; simp at hk
  | cons i rest ih =>
    intro st k hk
    unfold enhanceLoop
    rcases h1 : enhanceStep r b d originals i st with ⟨img, scores, st1⟩
    cases k with
    | zero =>
      refine ⟨st, ?_⟩
      simp [h1]
    | succ k' =>
      have hk' : k' < rest.length := by simpa using hk
      obtain ⟨stk, hstk⟩ := ih st1 k' hk'
      refine ⟨stk, ?_⟩
      simpa [h1] using hstk

theorem copySection_extends (r : Router) (b : Backend) (req : UserRequest)
    (st : RouterState) :
    TraceExtends st (copySection r b req st).2 := by
  unfold copySection
  rcases h1 : callJson r .COPY b.copyResult st with ⟨res, st1⟩
  have e1 : TraceExtends st st1 := by
    have := callJson_extends r .COPY b.copyResult st
    rwa [h1] at this
  cases res with
  | ok c => simpa using e1
  | error e =>
    simp only []
    by_cases hm : r.mode = .quality
    · simp only [hm, if_true]
      rcases h2 : callJsonWithMode r .fast .COPY b.copyResult st1 with ⟨res2, st2⟩
      have e2 : TraceExtends st1 st2 := by
        have := callJsonWithMode_extends r .fast .COPY b.copyResult st1
        rwa [h2] at this
      simpa using traceExtends_trans e1 e2
    · simp only [hm, if_false]
      simpa using e1

/-! ## Claim theorems -/

/-- The router instance of a fast-mode invocation. -/
def routerFast : Router := { matrix := MODEL_MATRIX, mode := .fast }

/-- The router instance of a quality-mode invocation. -/
def routerQuality : Router := { matrix := MODEL_MATRIX, mode := .quality }

/-- Claim C4: for every stage call, `withRetries` runs the attempt function up
to `max 1 spec.retries` times.  If the attempt at offset `j` (inside the
budget) returns normally and the validator accepts its result while all
earlier attempts failed, that result is returned immediately with `j` failure
records plus one success record appended and exactly `j + 1` oracle ticks
consumed — no further retries.  If every attempt inside the budget fails, the
last attempt's error is rethrown to the caller and one failure record per
attempt was appended.  `failTrail` holds exactly one record per attempt
(third conjunct), so each attempt appends exactly one TraceRecord. -/
theorem c4_withRetries_spec {α : Type} (agentId : AgentId) (spec : ModelSpec)
    (mode : Mode) (action : Nat → Except String α) (isValid : α → Bool)
    (mo : Option Mode) (st : RouterState) :
    (∀ j, j < max 1 spec.retries →
      (∀ k, k < j → attemptFails action isValid (st.calls + k) = true) →
      attemptFails action isValid (st.calls + j) = false →
      withRetries agentId spec mode action isValid mo st =
        (action (st.calls + j),
         { traces := st.traces ++ failTrail action agentId spec mo mode 0 st.calls j
             ++ [okRecord agentId spec mo mode j],
           calls := st.calls + j + 1 }))
    ∧ ((∀ k, k < max 1 spec.retries → attemptFails action isValid (st.calls + k) = true) →
      withRetries agentId spec mode action isValid mo st =
        (.error (failMsg action agentId (st.calls + (max 1 spec.retries - 1))),
         { traces := st.traces ++
             failTrail action agentId spec mo mode 0 st.calls (max 1 spec.retries),
           calls := st.calls + max 1 spec.retries }))
    ∧ (∀ att c n, (failTrail action agentId spec mo mode att c n).length = n) := by
  refine ⟨?_, ?_, failTrail_length action agentId spec mo mode⟩
  · intro j hj hfail hok
    have h := withRetriesGo_first_success agentId spec mode action isValid mo j
      (max 1 spec.retries) 0 "null" st hj hfail hok
    simpa [withRetries] using h
  · intro hall
    have h := withRetriesGo_all_fail agentId spec mode action isValid mo
      (max 1 spec.retries) 0 "null" st hall
    rw [withRetries, h, lastErrShown_pos action agentId "null" st.calls
      (max 1 spec.retries) (Nat.le_max_left 1 spec.retries)]

/-- A concrete spec with a retry budget of 3. -/
def c4spec : ModelSpec := { model := "m", temperature100 := 10, retries := 3 }

/-- A concrete attempt script: attempt 0 throws, attempt 1 succeeds. -/
def c4act : Nat → Except String Nat :=
  fun c => if c == 1 then .ok 5 else .error "boom"

/-- Witness for C4: two attempts run, one failure record and one success
record are appended, the accepted result is returned. -/
theorem c4_witness :
    withRetries .COPY c4spec .fast c4act (fun _ => true) none ⟨[], 0⟩ =
      (.ok 5,
       { traces := [failRecord .COPY c4spec none .fast 0 "boom",
                    okRecord .COPY c4spec none .fast 1],
         calls := 2 }) := by
  have h := (c4_withRetries_spec .COPY c4spec .fast c4act (fun _ => true) none
    ⟨[], 0⟩).1 1 (by decide) (by decide) (by decide)
  exact h.trans rfl

/-- Claim C9: the trace list only grows — every router operation returns a
state whose trace list extends the input trace list (first conjunct, covering
all call shapes since each goes through `withRetries`); and in a concrete
quality-mode invocation whose EMPATHY stage fails its primary attempts and
succeeds on the fast fallback, the failed (`ok = false`) EMPATHY records
remain in the final response's trace next to the later successful one. -/
theorem c9_trace_append_only :
    (∀ (α : Type) (agentId : AgentId) (spec : ModelSpec) (mode : Mode)
       (action : Nat → Except String α) (isValid : α → Bool) (mo : Option Mode)
       (st : RouterState),
       ∃ t, (withRetries agentId spec mode action isValid mo st).2.traces =
         st.traces ++ t)
    ∧ ((runOrchestrator backendFastTierOnlyText reqQualityNote "t9").debugInfo.llmTrace.any
        (fun rec => rec.agent == .EMPATHY && !rec.ok) = true)
    ∧ ((runOrchestrator backendFastTierOnlyText reqQualityNote "t9").debugInfo.llmTrace.any
        (fun rec => rec.agent == .EMPATHY && rec.ok && rec.mode == .fast) = true) := by
  refine ⟨?_, by decide, by decide⟩
  intro α agentId spec mode action isValid mo st
  exact withRetries_extends agentId spec mode action isValid mo st

/-- Claim C7: the guardrail stage picks the evaluator configured for the
active mode (FAST_GUARDRAIL preferred, else the IMAGE_QA quality evaluator);
when neither is configured the stage is skipped as an automatic pass with
`pass = true`, score 0 and verdict OK and no backend call; the IMAGE_QA
branch maps the quality-tier-only verdicts NEEDS_RECOMPOSE and NEEDS_CLEANUP
down to TOO_WEAK_CHANGE. -/
theorem c7_guardrail_selection (matrix : Mode → AgentId → Option ModelSpec)
    (mode : Mode) (b : Backend) (index : Nat) (original enhanced : String)
    (st : RouterState) :
    (matrix mode .FAST_GUARDRAIL = none → matrix mode .IMAGE_QA = none →
      runFastGuardrail ⟨matrix, mode⟩ b index original enhanced st =
        (.ok (autoPassVerdict index), st))
    ∧ ((autoPassVerdict index).pass = true ∧ (autoPassVerdict index).score = 0 ∧
        (autoPassVerdict index).verdict = "OK")
    ∧ (∀ spec, matrix mode .FAST_GUARDRAIL = some spec →
      runFastGuardrail ⟨matrix, mode⟩ b index original enhanced st =
        callJson ⟨matrix, mode⟩ .FAST_GUARDRAIL b.fastGuardrailResult st)
    ∧ (matrix mode .FAST_GUARDRAIL = none →
       ∀ spec, matrix mode .IMAGE_QA = some spec →
      runFastGuardrail ⟨matrix, mode⟩ b index original enhanced st =
        (match callJson ⟨matrix, mode⟩ .IMAGE_QA b.imageQaResult st with
         | (.ok qa, st') =>
           (.ok { image_index := index, pass := qa.pass, score := qa.score,
                  verdict := mapQaVerdict qa.verdict,
                  reasons := qa.reasons.getD [],
                  revision_actions := qa.revision_actions.getD [] }, st')
         | (.error e, st') => (.error e, st')))
    ∧ mapQaVerdict "NEEDS_RECOMPOSE" = "TOO_WEAK_CHANGE"
    ∧ mapQaVerdict "NEEDS_CLEANUP" = "TOO_WEAK_CHANGE" := by
  refine ⟨?_, ⟨rfl, rfl, rfl⟩, ?_, ?_, by decide, by decide⟩
  · intro hfg hqa
    unfold runFastGuardrail getSpecForMode
    simp [hfg, hqa]
  · intro spec hfg
    unfold runFastGuardrail getSpecForMode
    simp [hfg]
  · intro hfg spec hqa
    unfold runFastGuardrail getSpecForMode
    simp only [hfg, Option.isSome_none, Bool.false_eq_true, if_false, hqa,
      Option.isNone_some, if_true, reduceIte]

/-- Witness for C7: with a matrix configuring neither guardrail evaluator,
the stage is an automatic pass and the state is untouched. -/
theorem c7_witness :
    runFastGuardrail ⟨fun _ _ => none, .fast⟩ backendAllOk 0 "orig" "enh" ⟨[], 0⟩ =
      (.ok (autoPassVerdict 0), ⟨[], 0⟩) :=
  (c7_guardrail_selection (fun _ _ => none) .fast backendAllOk 0 "orig" "enh"
    ⟨[], 0⟩).1 rfl rfl

/-- Claim C10: when the Visual Director output has no plan whose
`image_index` equals `i`, the loop body for `i` returns the empty-string slot
(the original is not substituted), pushes no score entry, and leaves the
router state — trace list and backend call counter — unchanged (no
generation, guardrail, or rescue call); accordingly the response's
`enhanced_images_base64` entry at `i` is the empty string. -/
theorem c10_missing_plan_empty (r : Router) (b : Backend) (d : DirectorOut)
    (originals : List String) (i : Nat) (st : RouterState)
    (hplan : d.images.find? (fun p => p.image_index == i) = none) :
    enhanceStep r b d originals i st = ("", [], st)
    ∧ (i < originals.length →
        (enhanceAll r b d originals st).1.getD i "missing" = "") := by
  have hstep : ∀ st' : RouterState, enhanceStep r b d originals i st' = ("", [], st') := by
    intro st'
    unfold enhanceStep
    simp [hplan]
  refine ⟨hstep st, ?_⟩
  intro hi
  obtain ⟨stk, hk⟩ := enhanceLoop_getD r b d originals (List.range originals.length)
    st i (by simpa using hi)
  have hidx : (List.range originals.length).getD i 0 = i := by
    simp [List.getD, hi]
  rw [hidx] at hk
  unfold enhanceAll
  have hget : (enhanceLoop r b d originals (List.range originals.length) st).1.getD i "" = "" := by
    rw [hk, hstep stk]
  have hlen : i < (enhanceLoop r b d originals (List.range originals.length) st).1.length := by
    rw [enhanceLoop_length]
    simpa using hi
  rw [List.getD_eq_getElem?_getD] at hget ⊢
  rcases hx : (enhanceLoop r b d originals (List.range originals.length) st).1[i]? with _ | v
  · rw [List.getElem?_eq_none_iff] at hx
    omega
  · rw [hx] at hget
    simpa using hget

/-- A plan list with a single plan for image index 0. -/
def planW : DirectorImagePlan := { image_index := 0, nano_prompt_en_v2 := "p" }

/-- A Director output holding only `planW`. -/
def dW : DirectorOut := { images := [planW] }

/-- A Director output with an empty plan list. -/
def dEmpty : DirectorOut := { images := [] }

/-- Witness for C10: with no plan for index 0, the slot is the empty string
and the state is untouched. -/
theorem c10_witness :
    enhanceStep routerFast backendAllOk dEmpty ["data:o"] 0 ⟨[], 0⟩ = ("", [], ⟨[], 0⟩)
    ∧ (enhanceAll routerFast backendAllOk dEmpty ["data:o"] ⟨[], 0⟩).1.getD 0 "missing" = "" := by
  have h := c10_missing_plan_empty routerFast backendAllOk dEmpty ["data:o"] 0
    ⟨[], 0⟩ (by decide)
  exact ⟨h.1, h.2 (by decide)⟩

/-- The Understanding stage always consults the backend at least once (its
spec exists), so its safe wrapper strictly grows the trace list. -/
theorem safeRunUnderstanding_grows (r : Router) (b : Backend) (req : UserRequest)
    (st : RouterState) (hspec : (r.matrix r.mode .UNDERSTANDING).isSome = true) :
    st.traces.length < (safeRunUnderstanding r b req st).2.traces.length := by
  obtain ⟨spec, hs⟩ := Option.isSome_iff_exists.mp hspec
  have hg : st.traces.length <
      (callJson r .UNDERSTANDING b.understandingResult st).2.traces.length := by
    unfold callJson
    simp only [hs]
    exact withRetries_grows _ _ _ _ _ _ _
  unfold safeRunUnderstanding runUnderstanding
  rcases h1 : callJson r .UNDERSTANDING b.understandingResult st with ⟨res, st1⟩
  rw [h1] at hg
  replace hg : st.traces.length < st1.traces.length := by simpa using hg
  cases res with
  | ok u => simpa using hg
  | error e =>
    simp only []
    by_cases hm : r.mode = .quality
    · simp only [hm, if_true]
      rcases h2 : callJsonWithMode r .fast .UNDERSTANDING b.understandingResult st1 with ⟨res2, st2⟩
      have e2 : st1.traces.length ≤ st2.traces.length := by
        have := traceExtends_length
          (callJsonWithMode_extends r .fast .UNDERSTANDING b.understandingResult st1)
        rwa [h2] at this
      cases res2 with
      | ok u =>
        simp only []
        omega
      | error e =>
        simp only []
        omega
    · simp only [hm, if_false]
      simpa using hg

/-- Claim C1 (amended): a `refine` request without a trace id is NOT rejected
by the Orchestrator — there is no rejection path at all.  The pipeline mints a
fresh trace id, proceeds, makes backend calls and produces at least one
TraceRecord; the trace-id guard exists only in the UI caller. -/
theorem c1_refine_without_trace_proceeds (b : Backend) (req : UserRequest)
    (freshId : String) (_href : req.action = some ReqAction.refine)
    (htr : req.traceId = none) :
    (runOrchestrator b req freshId).traceId = freshId ∧
    (runOrchestrator b req freshId).debugInfo.llmTrace ≠ [] := by
  rcases h1 : safeRunUnderstanding
      ⟨MODEL_MATRIX, resolveMode req.enable_l4_loop req.performance_mode⟩ b req
      ⟨[], 0⟩ with ⟨u, st1⟩
  rcases h2 : safeRunVisualDirector
      ⟨MODEL_MATRIX, resolveMode req.enable_l4_loop req.performance_mode⟩ b req u
      st1 with ⟨d, st2⟩
  rcases h3 : enhanceAll
      ⟨MODEL_MATRIX, resolveMode req.enable_l4_loop req.performance_mode⟩ b d
      req.images st2 with ⟨imgs, scores, st3⟩
  rcases h4 : empathySection
      ⟨MODEL_MATRIX, resolveMode req.enable_l4_loop req.performance_mode⟩ b req
      st3 with ⟨er, st4⟩
  rcases h5 : copySection
      ⟨MODEL_MATRIX, resolveMode req.enable_l4_loop req.performance_mode⟩ b req
      st4 with ⟨cp, st5⟩
  have hsomeU : ∀ m : Mode, (MODEL_MATRIX m .UNDERSTANDING).isSome = true := by
    intro m
    cases m <;> rfl
  have g1 : 0 < st1.traces.length := by
    have := safeRunUnderstanding_grows
      ⟨MODEL_MATRIX, resolveMode req.enable_l4_loop req.performance_mode⟩ b req
      ⟨[], 0⟩ (hsomeU _)
    rw [h1] at this
    simpa using this
  have g2 : st1.traces.length ≤ st2.traces.length := by
    have := traceExtends_length (safeRunVisualDirector_extends
      ⟨MODEL_MATRIX, resolveMode req.enable_l4_loop req.performance_mode⟩ b req u st1)
    rwa [h2] at this
  have g3 : st2.traces.length ≤ st3.traces.length := by
    have := traceExtends_length (enhanceLoop_extends
      ⟨MODEL_MATRIX, resolveMode req.enable_l4_loop req.performance_mode⟩ b d
      req.images (List.range req.images.length) st2)
    rw [show enhanceLoop ⟨MODEL_MATRIX, resolveMode req.enable_l4_loop req.performance_mode⟩
        b d req.images (List.range req.images.length) st2 =
      enhanceAll ⟨MODEL_MATRIX, resolveMode req.enable_l4_loop req.performance_mode⟩
        b d req.images st2 from rfl, h3] at this
    exact this
  have g4 : st3.traces.length ≤ st4.traces.length := by
    have := traceExtends_length (empathySection_extends
      ⟨MODEL_MATRIX, resolveMode req.enable_l4_loop req.performance_mode⟩ b req st3)
    rwa [h4] at this
  have g5 : st4.traces.length ≤ st5.traces.length := by
    have := traceExtends_length (copySection_extends
      ⟨MODEL_MATRIX, resolveMode req.enable_l4_loop req.performance_mode⟩ b req st4)
    rwa [h5] at this
  refine ⟨?_, ?_⟩
  · simp [runOrchestrator, h1, h2, h3, h4, h5, htr]
  · have hpos : 0 < st5.traces.length := by omega
    simp only [runOrchestrator, h1, h2, h3, h4, h5]
    exact List.ne_nil_of_length_pos hpos

/-- Counterexample for C1 as stated: a `refine` request with no trace id is
not rejected before any backend call — the pipeline runs and produces three
TraceRecords (Understanding, Empathy, Copy), not zero. -/
theorem c1_counterexample :
    reqRefineNoTrace.action = some ReqAction.refine ∧
    reqRefineNoTrace.traceId = none ∧
    (runOrchestrator backendAllOk reqRefineNoTrace "fresh-id").debugInfo.llmTrace.length = 3 := by
  refine ⟨rfl, rfl, by decide⟩

/-- Witness for C1 (amended) at a concrete refine request and backend. -/
theorem c1_witness :
    (runOrchestrator backendAllOk reqRefineNoTrace "fresh-id").traceId = "fresh-id" ∧
    (runOrchestrator backendAllOk reqRefineNoTrace "fresh-id").debugInfo.llmTrace ≠ [] :=
  c1_refine_without_trace_proceeds backendAllOk reqRefineNoTrace "fresh-id" rfl rfl

/-- Claim C2 (code bug): in a quality-mode invocation where the primary COPY
and EMPATHY calls exhaust their retries but the fast-mode retries succeed
(visible in the trace as `ok = true` records with mode `fast`), the response
nevertheless carries the deterministic fallbacks: lines 710 and 731 of the
orchestrator overwrite the successful fast-tier results unconditionally. -/
theorem c2_fast_result_discarded :
    ((runOrchestrator backendFastTierOnlyText reqQualityNote "t2").debugInfo.llmTrace.any
      (fun rec => rec.agent == .COPY && rec.ok && rec.mode == .fast) = true)
    ∧ ((runOrchestrator backendFastTierOnlyText reqQualityNote "t2").debugInfo.llmTrace.any
      (fun rec => rec.agent == .EMPATHY && rec.ok && rec.mode == .fast) = true)
    ∧ (runOrchestrator backendFastTierOnlyText reqQualityNote "t2").variants.map
        (fun v => v.copy) = [fallbackCopy reqQualityNote]
    ∧ (runOrchestrator backendFastTierOnlyText reqQualityNote "t2").empathic_reply =
        fallbackEmpathy reqQualityNote
    ∧ fallbackCopy reqQualityNote ≠
        { title := "FastTitle", main_text := "FastBody", hash_tags := ["#fast"] }
    ∧ fallbackEmpathy reqQualityNote ≠ "fast warm reply" := by
  exact ⟨by decide, by decide, by decide, by decide, by decide, by decide⟩

/-- Claim C8 (amended): when the Empathic Reply stage fails in both mode
tiers, the returned reply is the deterministic template built from the raw
text, chosen by a fixed switch on whether the raw text is empty — not on the
request's language field. -/
theorem c8_fallback_reply_switch (r : Router) (b : Backend) (req : UserRequest)
    (st : RouterState) (e1 e2 : String)
    (hprim : (callText r .EMPATHY b.empathyResult st).1 = .error e1)
    (_hfast : (callTextWithMode r .fast .EMPATHY b.empathyResult
        (callText r .EMPATHY b.empathyResult st).2).1 = .error e2) :
    (empathySection r b req st).1 =
      (if req.raw_text.isEmpty then "Thanks for sharing. I am here with you."
       else "收到你的分享：「" ++ req.raw_text ++ "」") := by
  unfold empathySection
  rcases h : callText r .EMPATHY b.empathyResult st with ⟨res, st1⟩
  rw [h] at hprim
  simp only [] at hprim
  subst hprim
  by_cases hm : r.mode = .quality
  · simp [hm, fallbackEmpathy]
  · simp [hm, fallbackEmpathy]

/-- Counterexample for C8 as stated: with both empathy tiers failing, an
`en`-language request receives the Chinese-wrapped template, and a request
differing only in its language field receives the identical reply — the
fallback's switch does not consult the language field. -/
theorem c8_counterexample :
    reqHelloEn.language = some Lang.en ∧
    reqHelloZh.language = some Lang.zh ∧
    reqHelloEn.raw_text = reqHelloZh.raw_text ∧
    (runOrchestrator backendAllFail reqHelloEn "t8").empathic_reply =
      "收到你的分享：「hello」" ∧
    (runOrchestrator backendAllFail reqHelloZh "t8").empathic_reply =
      (runOrchestrator backendAllFail reqHelloEn "t8").empathic_reply := by
  exact ⟨rfl, rfl, rfl, by decide, by decide⟩

/-- Witness for C8 (amended) at a concrete quality-mode request/backend. -/
theorem c8_witness :
    (empathySection routerQuality backendAllFail reqHelloEn ⟨[], 0⟩).1 =
      "收到你的分享：「hello」" := by
  have h := c8_fallback_reply_switch routerQuality backendAllFail reqHelloEn
    ⟨[], 0⟩ "backend down" "backend down" (by decide) (by decide)
  exact h.trans (by decide)

/-- Claim C6: for an image index that has both a source image and a Director
plan, when image generation fails in both mode tiers (no enhancement
produced), the loop body returns the original source image — not an empty
result — with no score entry and no further backend call; moreover the loop
always yields one slot per index and every position is a normal per-index
computation, so one image's failure never aborts the loop for the others. -/
theorem c6_fallback_to_original (r : Router) (b : Backend) (d : DirectorOut)
    (originals : List String) (i : Nat) (st : RouterState) (plan : DirectorImagePlan)
    (hplan : d.images.find? (fun p => p.image_index == i) = some plan)
    (hgen : (genPrimaryWithFallback r b plan.nano_prompt_en_v2
      (originals.getD i "") st).1 = none) :
    (enhanceStep r b d originals i st =
      (originals.getD i "", [],
       (genPrimaryWithFallback r b plan.nano_prompt_en_v2 (originals.getD i "") st).2))
    ∧ (∀ (idxs : List Nat) (st' : RouterState),
        (enhanceLoop r b d originals idxs st').1.length = idxs.length)
    ∧ (∀ (idxs : List Nat) (st' : RouterState) (k : Nat), k < idxs.length →
        ∃ stk, (enhanceLoop r b d originals idxs st').1.getD k "" =
          (enhanceStep r b d originals (idxs.getD k 0) stk).1) := by
  refine ⟨?_, enhanceLoop_length r b d originals, enhanceLoop_getD r b d originals⟩
  rcases hg : genPrimaryWithFallback r b plan.nano_prompt_en_v2
      (originals.getD i "") st with ⟨resultImg, st1⟩
  rw [hg] at hgen
  have hgen' : resultImg = none := hgen
  subst hgen'
  unfold enhanceStep
  rw [hplan]
  simp only [hg, imgTruthy, Bool.false_eq_true, if_false]
  simp [jsOr]

/-- Witness for C6: both image-generation tiers fail for index 0 and the slot
equals the original source image. -/
theorem c6_witness :
    (enhanceStep routerQuality backendAllFail dW ["data:o"] 0 ⟨[], 0⟩).1 = "data:o"
    ∧ (enhanceLoop routerQuality backendAllFail dW ["data:o"] [0] ⟨[], 0⟩).1.length = 1 := by
  have h := c6_fallback_to_original routerQuality backendAllFail dW ["data:o"] 0
    ⟨[], 0⟩ planW (by decide) (by decide)
  refine ⟨?_, h.2.1 [0] ⟨[], 0⟩⟩
  rw [h.1]
  rfl

/-- Claim C3: when the guardrail verdict for a produced image fails, the loop
performs exactly one rescue: one further image call with the original prompt
plus the appended stricter directive, in `quality` mode (forced up from
`fast`, never downgraded — the mode formula yields `quality` for both
current modes), after which the iteration ends at that call's state — the
rescue output is never re-validated by a second guardrail pass and no loop
occurs; a rescue that returns an image unconditionally replaces the prior
result (third conjunct). -/
theorem c3_single_rescue (r : Router) (b : Backend) (d : DirectorOut)
    (originals : List String) (i : Nat) (st : RouterState) (plan : DirectorImagePlan)
    (img : String)
    (hplan : d.images.find? (fun p => p.image_index == i) = some plan)
    (hgen : (genPrimaryWithFallback r b plan.nano_prompt_en_v2
      (originals.getD i "") st).1 = some img)
    (himg : img ≠ "")
    (hguard : (safeRunFastGuardrail r b i (originals.getD i "") img
      (genPrimaryWithFallback r b plan.nano_prompt_en_v2 (originals.getD i "") st).2).1.pass
      = false) :
    ((if r.mode = .fast then Mode.quality else r.mode) = Mode.quality)
    ∧ (let stG := safeRunFastGuardrail r b i (originals.getD i "") img
         (genPrimaryWithFallback r b plan.nano_prompt_en_v2 (originals.getD i "") st).2;
       let rcall := callImageGenWithMode r Mode.quality b.imageGenResult
         (plan.nano_prompt_en_v2 ++ rescueSuffix) (originals.getD i "") stG.2;
       enhanceStep r b d originals i st =
         (jsOr (some (rescueReplace rcall.1 img)) (originals.getD i ""),
          [{ index := i, score := stG.1.score, verdict := stG.1.verdict }],
          rcall.2))
    ∧ (∀ s : String, s ≠ "" →
        (callImageGenWithMode r Mode.quality b.imageGenResult
          (plan.nano_prompt_en_v2 ++ rescueSuffix) (originals.getD i "")
          (safeRunFastGuardrail r b i (originals.getD i "") img
            (genPrimaryWithFallback r b plan.nano_prompt_en_v2
              (originals.getD i "") st).2).2).1 = .ok (some s) →
        (enhanceStep r b d originals i st).1 = s) := by
  have hmode : (if r.mode = .fast then Mode.quality else r.mode) = Mode.quality := by
    cases hm : r.mode with
    | fast => simp
    | quality => simp
  rcases hg : genPrimaryWithFallback r b plan.nano_prompt_en_v2
      (originals.getD i "") st with ⟨resultImg, st1⟩
  rw [hg] at hgen hguard
  have hgen' : resultImg = some img := hgen
  subst hgen'
  have hguard1 : (safeRunFastGuardrail r b i (originals.getD i "") img st1).1.pass
      = false := hguard
  rcases hgd : safeRunFastGuardrail r b i (originals.getD i "") img st1 with ⟨guard, st2⟩
  rw [hgd] at hguard1
  have hpass : guard.pass = false := hguard1
  have hie : img.isEmpty = false := by
    cases h : img.isEmpty with
    | false => rfl
    | true => exact absurd ((String.isEmpty_iff img).mp h) himg
  have htruthy : imgTruthy (some img) = true := by simp [imgTruthy, hie]
  rcases hr : callImageGenWithMode r Mode.quality b.imageGenResult
      (plan.nano_prompt_en_v2 ++ rescueSuffix) (originals.getD i "") st2 with ⟨rres, st3⟩
  have hmain : enhanceStep r b d originals i st =
      (jsOr (some (rescueReplace rres img)) (originals.getD i ""),
       [{ index := i, score := guard.score, verdict := guard.verdict }], st3) := by
    unfold enhanceStep
    rw [hplan]
    simp only [hg, htruthy, if_true]
    have hgetd : (some img).getD "" = img := rfl
    rw [hgetd, hgd]
    simp only [hpass, Bool.false_eq_true, if_false, hmode]
    rw [hr]
  refine ⟨hmode, ?_, ?_⟩
  · simp only [hg, hgd, hr]
    exact hmain
  · intro s hs hok
    simp only [hg, hgd, hr] at hok
    have hok' : rres = .ok (some s) := hok
    have hse : s.isEmpty = false := by
      cases h : s.isEmpty with
      | false => rfl
      | true => exact absurd ((String.isEmpty_iff s).mp h) hs
    rw [hmain]
    simp [hok', rescueReplace, imgTruthy, hse, jsOr]

/-- A backend whose image generator answers the plain plan prompt with one
image and the strict rescue prompt with another, and whose guardrail always
fails the verdict. -/
def backendRescue : Backend :=
  { understandingResult := fun _ => .error "x",
    directorResult := fun _ => .error "x",
    fastGuardrailResult := fun _ => .ok
      { image_index := 0, pass := false, score := 2, verdict := "ARTIFACTS",
        reasons := [], revision_actions := [] },
    imageQaResult := fun _ => .error "x",
    copyResult := fun _ => .error "x",
    empathyResult := fun _ => .error "x",
    imageGenResult := fun prompt _ _ =>
      if prompt == "p" then .ok (some "data:gen") else .ok (some "data:rescue") }

/-- Witness for C3: the guardrail rejects the generated image and the final
slot is the rescue output. -/
theorem c3_witness :
    (enhanceStep routerFast backendRescue dW ["data:o"] 0 ⟨[], 0⟩).1 = "data:rescue" := by
  have h := c3_single_rescue routerFast backendRescue dW ["data:o"] 0 ⟨[], 0⟩
    planW "data:gen" (by decide) (by decide) (by decide) (by decide)
  exact h.2.2 "data:rescue" (by decide) (by decide)

/-- Claim C5: for every stage, the cross-mode (fast) fallback attempt happens
only when the active mode is `quality` and the primary retries are exhausted.
Per stage wrapper: (a) a successful primary call is returned as-is at the
primary call's state (no fallback attempt); (b) in `fast` mode a primary
failure goes straight to the deterministic default at the primary call's
state — no cross-mode retry consults the backend; (c)/(d) in `quality` mode a
primary failure is followed by the fast-tier call, whose state the wrapper
ends in.  (For the Empathy and Caption sections the fast-tier call is made
but its value is overwritten by the deterministic fallback — see C2; the
trigger condition claimed here still holds.) -/
theorem c5_cross_mode_fallback (r : Router) (b : Backend) (req : UserRequest)
    (understanding : UnderstandingOut) (index : Nat)
    (original enhanced prompt base : String) (st : RouterState) :
    ((∀ u, (callJson r .UNDERSTANDING b.understandingResult st).1 = .ok u →
        safeRunUnderstanding r b req st =
          (u, (callJson r .UNDERSTANDING b.understandingResult st).2))
     ∧ (∀ e, (callJson r .UNDERSTANDING b.understandingResult st).1 = .error e →
        r.mode = .fast →
        safeRunUnderstanding r b req st =
          (buildFallbackUnderstanding req,
           (callJson r .UNDERSTANDING b.understandingResult st).2))
     ∧ (∀ e u2, (callJson r .UNDERSTANDING b.understandingResult st).1 = .error e →
        r.mode = .quality →
        (callJsonWithMode r .fast .UNDERSTANDING b.understandingResult
          (callJson r .UNDERSTANDING b.understandingResult st).2).1 = .ok u2 →
        safeRunUnderstanding r b req st =
          (u2, (callJsonWithMode r .fast .UNDERSTANDING b.understandingResult
            (callJson r .UNDERSTANDING b.understandingResult st).2).2))
     ∧ (∀ e e2, (callJson r .UNDERSTANDING b.understandingResult st).1 = .error e →
        r.mode = .quality →
        (callJsonWithMode r .fast .UNDERSTANDING b.understandingResult
          (callJson r .UNDERSTANDING b.understandingResult st).2).1 = .error e2 →
        safeRunUnderstanding r b req st =
          (buildFallbackUnderstanding req,
           (callJsonWithMode r .fast .UNDERSTANDING b.understandingResult
            (callJson r .UNDERSTANDING b.understandingResult st).2).2)))
    ∧ ((∀ dd, req.images.length ≠ 0 →
        (callJson r .VISUAL_DIRECTOR b.directorResult st).1 = .ok dd →
        safeRunVisualDirector r b req understanding st =
          (rewritePlans req understanding dd,
           (callJson r .VISUAL_DIRECTOR b.directorResult st).2))
     ∧ (∀ e, req.images.length ≠ 0 →
        (callJson r .VISUAL_DIRECTOR b.directorResult st).1 = .error e →
        r.mode = .fast →
        safeRunVisualDirector r b req understanding st =
          (rewritePlans req understanding (buildFallbackDirector req understanding),
           (callJson r .VISUAL_DIRECTOR b.directorResult st).2))
     ∧ (∀ e dd2, req.images.length ≠ 0 →
        (callJson r .VISUAL_DIRECTOR b.directorResult st).1 = .error e →
        r.mode = .quality →
        (callJsonWithMode r .fast .VISUAL_DIRECTOR b.directorResult
          (callJson r .VISUAL_DIRECTOR b.directorResult st).2).1 = .ok dd2 →
        safeRunVisualDirector r b req understanding st =
          (rewritePlans req understanding dd2,
           (callJsonWithMode r .fast .VISUAL_DIRECTOR b.directorResult
            (callJson r .VISUAL_DIRECTOR b.directorResult st).2).2))
     ∧ (∀ e e2, req.images.length ≠ 0 →
        (callJson r .VISUAL_DIRECTOR b.directorResult st).1 = .error e →
        r.mode = .quality →
        (callJsonWithMode r .fast .VISUAL_DIRECTOR b.directorResult
          (callJson r .VISUAL_DIRECTOR b.directorResult st).2).1 = .error e2 →
        safeRunVisualDirector r b req understanding st =
          (rewritePlans req understanding (buildFallbackDirector req understanding),
           (callJsonWithMode r .fast .VISUAL_DIRECTOR b.directorResult
            (callJson r .VISUAL_DIRECTOR b.directorResult st).2).2)))
    ∧ ((∀ g, (runFastGuardrail r b index original enhanced st).1 = .ok g →
        safeRunFastGuardrail r b index original enhanced st =
          (g, (runFastGuardrail r b index original enhanced st).2))
     ∧ (∀ e, (runFastGuardrail r b index original enhanced st).1 = .error e →
        r.mode = .fast →
        safeRunFastGuardrail r b index original enhanced st =
          (autoPassVerdict index, (runFastGuardrail r b index original enhanced st).2))
     ∧ (∀ e g2, (runFastGuardrail r b index original enhanced st).1 = .error e →
        r.mode = .quality →
        (callJsonWithMode r .fast .FAST_GUARDRAIL b.fastGuardrailResult
          (runFastGuardrail r b index original enhanced st).2).1 = .ok g2 →
        safeRunFastGuardrail r b index original enhanced st =
          (g2, (callJsonWithMode r .fast .FAST_GUARDRAIL b.fastGuardrailResult
            (runFastGuardrail r b index original enhanced st).2).2))
     ∧ (∀ e e2, (runFastGuardrail r b index original enhanced st).1 = .error e →
        r.mode = .quality →
        (callJsonWithMode r .fast .FAST_GUARDRAIL b.fastGuardrailResult
          (runFastGuardrail r b index original enhanced st).2).1 = .error e2 →
        safeRunFastGuardrail r b index original enhanced st =
          (autoPassVerdict index,
           (callJsonWithMode r .fast .FAST_GUARDRAIL b.fastGuardrailResult
            (runFastGuardrail r b index original enhanced st).2).2)))
    ∧ ((∀ img, (callImageGen r b.imageGenResult prompt base st).1 = .ok img →
        genPrimaryWithFallback r b prompt base st =
          (img, (callImageGen r b.imageGenResult prompt base st).2))
     ∧ (∀ e, (callImageGen r b.imageGenResult prompt base st).1 = .error e →
        r.mode = .fast →
        genPrimaryWithFallback r b prompt base st =
          (none, (callImageGen r b.imageGenResult prompt base st).2))
     ∧ (∀ e img2, (callImageGen r b.imageGenResult prompt base st).1 = .error e →
        r.mode = .quality →
        (callImageGenWithMode r .fast b.imageGenResult prompt base
          (callImageGen r b.imageGenResult prompt base st).2).1 = .ok img2 →
        genPrimaryWithFallback r b prompt base st =
          (img2, (callImageGenWithMode r .fast b.imageGenResult prompt base
            (callImageGen r b.imageGenResult prompt base st).2).2))
     ∧ (∀ e e2, (callImageGen r b.imageGenResult prompt base st).1 = .error e →
        r.mode = .quality →
        (callImageGenWithMode r .fast b.imageGenResult prompt base
          (callImageGen r b.imageGenResult prompt base st).2).1 = .error e2 →
        genPrimaryWithFallback r b prompt base st =
          (none, (callImageGenWithMode r .fast b.imageGenResult prompt base
            (callImageGen r b.imageGenResult prompt base st).2).2)))
    ∧ ((∀ t, (callText r .EMPATHY b.empathyResult st).1 = .ok t →
        empathySection r b req st = (t, (callText r .EMPATHY b.empathyResult st).2))
     ∧ (∀ e, (callText r .EMPATHY b.empathyResult st).1 = .error e →
        r.mode = .fast →
        empathySection r b req st =
          (fallbackEmpathy req, (callText r .EMPATHY b.empathyResult st).2))
     ∧ (∀ e, (callText r .EMPATHY b.empathyResult st).1 = .error e →
        r.mode = .quality →
        empathySection r b req st =
          (fallbackEmpathy req, (callTextWithMode r .fast .EMPATHY b.empathyResult
            (callText r .EMPATHY b.empathyResult st).2).2)))
    ∧ ((∀ c, (callJson r .COPY b.copyResult st).1 = .ok c →
        copySection r b req st = (c, (callJson r .COPY b.copyResult st).2))
     ∧ (∀ e, (callJson r .COPY b.copyResult st).1 = .error e →
        r.mode = .fast →
        copySection r b req st =
          (fallbackCopy req, (callJson r .COPY b.copyResult st).2))
     ∧ (∀ e, (callJson r .COPY b.copyResult st).1 = .error e →
        r.mode = .quality →
        copySection r b req st =
          (fallbackCopy req, (callJsonWithMode r .fast .COPY b.copyResult
            (callJson r .COPY b.copyResult st).2).2))) := by
  refine ⟨⟨?_, ?_, ?_, ?_⟩, ⟨?_, ?_, ?_, ?_⟩, ⟨?_, ?_, ?_, ?_⟩, ⟨?_, ?_, ?_, ?_⟩,
    ⟨?_, ?_, ?_⟩, ⟨?_, ?_, ?_⟩⟩
  · intro u hu
    unfold safeRunUnderstanding runUnderstanding
    rcases h : callJson r .UNDERSTANDING b.understandingResult st with ⟨res, st1⟩
    rw [h] at hu
    have hu' : res = .ok u := hu
    subst hu'
    simp [h]
  · intro e he hm
    unfold safeRunUnderstanding runUnderstanding
    rcases h : callJson r .UNDERSTANDING b.understandingResult st with ⟨res, st1⟩
    rw [h] at he
    have he' : res = .error e := he
    subst he'
    simp [h, hm]
  · intro e u2 he hm h2
    unfold safeRunUnderstanding runUnderstanding
    rcases h : callJson r .UNDERSTANDING b.understandingResult st with ⟨res, st1⟩
    rw [h] at he h2
    have he' : res = .error e := he
    subst he'
    simp only [] at h2
    rcases hf : callJsonWithMode r .fast .UNDERSTANDING b.understandingResult st1
      with ⟨res2, st2⟩
    rw [hf] at h2
    have h2' : res2 = .ok u2 := h2
    subst h2'
    simp [h, hm, hf]
  · intro e e2 he hm h2
    unfold safeRunUnderstanding runUnderstanding
    rcases h : callJson r .UNDERSTANDING b.understandingResult st with ⟨res, st1⟩
    rw [h] at he h2
    have he' : res = .error e := he
    subst he'
    simp only [] at h2
    rcases hf : callJsonWithMode r .fast .UNDERSTANDING b.understandingResult st1
      with ⟨res2, st2⟩
    rw [hf] at h2
    have h2' : res2 = .error e2 := h2
    subst h2'
    simp [h, hm, hf]
  · intro dd hne hdd
    unfold safeRunVisualDirector runVisualDirector
    rcases h : callJson r .VISUAL_DIRECTOR b.directorResult st with ⟨res, st1⟩
    rw [h] at hdd
    have h' : res = .ok dd := hdd
    subst h'
    simp [h, hne]
  · intro e hne he hm
    unfold safeRunVisualDirector runVisualDirector
    rcases h : callJson r .VISUAL_DIRECTOR b.directorResult st with ⟨res, st1⟩
    rw [h] at he
    have he' : res = .error e := he
    subst he'
    simp [h, hne, hm]
  · intro e dd2 hne he hm h2
    unfold safeRunVisualDirector runVisualDirector
    rcases h : callJson r .VISUAL_DIRECTOR b.directorResult st with ⟨res, st1⟩
    rw [h] at he h2
    have he' : res = .error e := he
    subst he'
    simp only [] at h2
    rcases hf : callJsonWithMode r .fast .VISUAL_DIRECTOR b.directorResult st1
      with ⟨res2, st2⟩
    rw [hf] at h2
    have h2' : res2 = .ok dd2 := h2
    subst h2'
    simp [h, hne, hm, hf]
  · intro e e2 hne he hm h2
    unfold safeRunVisualDirector runVisualDirector
    rcases h : callJson r .VISUAL_DIRECTOR b.directorResult st with ⟨res, st1⟩
    rw [h] at he h2
    have he' : res = .error e := he
    subst he'
    simp only [] at h2
    rcases hf : callJsonWithMode r .fast .VISUAL_DIRECTOR b.directorResult st1
      with ⟨res2, st2⟩
    rw [hf] at h2
    have h2' : res2 = .error e2 := h2
    subst h2'
    simp [h, hne, hm, hf]
  · intro g hg'
    unfold safeRunFastGuardrail
    rcases h : runFastGuardrail r b index original enhanced st with ⟨res, st1⟩
    rw [h] at hg'
    have h' : res = .ok g := hg'
    subst h'
    simp [h]
  · intro e he hm
    unfold safeRunFastGuardrail
    rcases h : runFastGuardrail r b index original enhanced st with ⟨res, st1⟩
    rw [h] at he
    have he' : res = .error e := he
    subst he'
    simp [h, hm]
  · intro e g2 he hm h2
    unfold safeRunFastGuardrail
    rcases h : runFastGuardrail r b index original enhanced st with ⟨res, st1⟩
    rw [h] at he h2
    have he' : res = .error e := he
    subst he'
    simp only [] at h2
    rcases hf : callJsonWithMode r .fast .FAST_GUARDRAIL b.fastGuardrailResult st1
      with ⟨res2, st2⟩
    rw [hf] at h2
    have h2' : res2 = .ok g2 := h2
    subst h2'
    simp [h, hm, hf]
  · intro e e2 he hm h2
    unfold safeRunFastGuardrail
    rcases h : runFastGuardrail r b index original enhanced st with ⟨res, st1⟩
    rw [h] at he h2
    have he' : res = .error e := he
    subst he'
    simp only [] at h2
    rcases hf : callJsonWithMode r .fast .FAST_GUARDRAIL b.fastGuardrailResult st1
      with ⟨res2, st2⟩
    rw [hf] at h2
    have h2' : res2 = .error e2 := h2
    subst h2'
    simp [h, hm, hf]
  · intro img himg'
    unfold genPrimaryWithFallback
    rcases h : callImageGen r b.imageGenResult prompt base st with ⟨res, st1⟩
    rw [h] at himg'
    have h' : res = .ok img := himg'
    subst h'
    simp [h]
  · intro e he hm
    unfold genPrimaryWithFallback
    rcases h : callImageGen r b.imageGenResult prompt base st with ⟨res, st1⟩
    rw [h] at he
    have he' : res = .error e := he
    subst he'
    simp [h, hm]
  · intro e img2 he hm h2
    unfold genPrimaryWithFallback
    rcases h : callImageGen r b.imageGenResult prompt base st with ⟨res, st1⟩
    rw [h] at he h2
    have he' : res = .error e := he
    subst he'
    simp only [] at h2
    rcases hf : callImageGenWithMode r .fast b.imageGenResult prompt base st1
      with ⟨res2, st2⟩
    rw [hf] at h2
    have h2' : res2 = .ok img2 := h2
    subst h2'
    simp [h, hm, hf]
  · intro e e2 he hm h2
    unfold genPrimaryWithFallback
    rcases h : callImageGen r b.imageGenResult prompt base st with ⟨res, st1⟩
    rw [h] at he h2
    have he' : res = .error e := he
    subst he'
    simp only [] at h2
    rcases hf : callImageGenWithMode r .fast b.imageGenResult prompt base st1
      with ⟨res2, st2⟩
    rw [hf] at h2
    have h2' : res2 = .error e2 := h2
    subst h2'
    simp [h, hm, hf]
  · intro t ht
    unfold empathySection
    rcases h : callText r .EMPATHY b.empathyResult st with ⟨res, st1⟩
    rw [h] at ht
    have h' : res = .ok t := ht
    subst h'
    simp [h]
  · intro e he hm
    unfold empathySection
    rcases h : callText r .EMPATHY b.empathyResult st with ⟨res, st1⟩
    rw [h] at he
    have he' : res = .error e := he
    subst he'
    simp [h, hm]
  · intro e he hm
    unfold empathySection
    rcases h : callText r .EMPATHY b.empathyResult st with ⟨res, st1⟩
    rw [h] at he
    have he' : res = .error e := he
    subst he'
    rcases hf : callTextWithMode r .fast .EMPATHY b.empathyResult st1 with ⟨res2, st2⟩
    simp [h, hm, hf]
  · intro c hc
    unfold copySection
    rcases h : callJson r .COPY b.copyResult st with ⟨res, st1⟩
    rw [h] at hc
    have h' : res = .ok c := hc
    subst h'
    simp [h]
  · intro e he hm
    unfold copySection
    rcases h : callJson r .COPY b.copyResult st with ⟨res, st1⟩
    rw [h] at he
    have he' : res = .error e := he
    subst he'
    simp [h, hm]
  · intro e he hm
    unfold copySection
    rcases h : callJson r .COPY b.copyResult st with ⟨res, st1⟩
    rw [h] at he
    have he' : res = .error e := he
    subst he'
    rcases hf : callJsonWithMode r .fast .COPY b.copyResult st1 with ⟨res2, st2⟩
    simp [h, hm, hf]

/-- Witness for C5: in fast mode a failed Empathy call goes straight to the
deterministic fallback at the primary call's state — no cross-mode retry. -/
theorem c5_witness :
    empathySection routerFast backendAllFail reqRefineNoTrace ⟨[], 0⟩ =
      (fallbackEmpathy reqRefineNoTrace,
       (callText routerFast .EMPATHY backendAllFail.empathyResult ⟨[], 0⟩).2) := by
  have h := (c5_cross_mode_fallback routerFast backendAllFail reqRefineNoTrace
    sampleUnderstanding 0 "orig" "enh" "prompt" "base" ⟨[], 0⟩).2.2.2.2.1.2.1
  exact h "backend down" (by decide) rfl

end AmplifyMe
